import Mathlib

set_option linter.unusedVariables false

/-!
Verification of the ddbio-ngsflow pipeline glue layer.

The repository consists of stage functions (in `ddb_ngsflow/annotation.py`,
`ngsflow/gatk.py`, `ngsflow/variation/platypus.py`) that derive output file
names from a sample identifier and a configuration dictionary, build a
command line for an external tool, log it, and run it through
`pipeline.run_and_log_command`.

Shallow embedding choices:
- Python values flowing through the configuration dictionary are modelled by
  `PyVal` (strings, integers, nested dicts as association lists preserving
  insertion order).
- Dictionary subscripting `d[k]` is `PyVal.sub`, which raises `KeyError k`
  on a missing key of a dict and `TypeError` when subscripting a non-dict;
  item assignment `d[k] = v` is `PyVal.set`.
- `"{}".format(x)` / `"%s" % x` is `PyVal.fmt` (Python `str()`); the repr of
  nested values inside a dict is `PyVal.pyrepr` (string escaping inside
  reprs is not modelled; no stage formats a string needing escapes).
- Observable side effects (`job.fileStore.logToMaster`,
  `pipeline.run_and_log_command`, `utilities.touch`, `time.sleep`,
  `sys.stdout.write`) are recorded as an ordered `Effect` trace.  A master
  log entry carries its format-string label and the command argument list.
- A stage returns `StageRes α = Except PyErr α × List Effect`: the raised
  exception or returned value, together with the effects performed before
  returning/raising.  In every stage of the source, all configuration
  lookups of a construction phase happen before the phase's effects, so a
  stage is `runPlan pre plan` where `pre` are the effects preceding any
  lookup and `plan` is the fallible construction yielding the output value
  and remaining effects.
- `multiprocessing.cpu_count()` is an ambient machine parameter; it is
  passed explicitly as a `cpu : Nat` argument to every stage (only
  `realign_indels`, `recalibrator` and `platypus_single` read it).
- In-place mutation of the per-sample dictionaries by `run_mark_duplicates`
  is modelled by returning the updated sample list.
-/

/-- A Python value as used by the configuration dictionaries of this
repository: a string, an integer, or a dict with string keys. -/
inductive PyVal where
  | s (v : String)
  | i (n : Int)
  | d (m : List (String × PyVal))

/-- A Python exception raised by dictionary access. -/
inductive PyErr where
  | keyError (k : String)
  | typeError
deriving DecidableEq

/-- Association-list lookup preserving Python dict semantics (first match). -/
def findPairs : List (String × PyVal) → String → Option PyVal
  | [], _ => none
  | (k0, v0) :: rest, k => if k0 = k then some v0 else findPairs rest k

/-- Association-list update: replace in place if present, else append
(Python dict item assignment). -/
def setPairs : List (String × PyVal) → String → PyVal → List (String × PyVal)
  | [], k, v => [(k, v)]
  | (k0, v0) :: rest, k, v =>
    if k0 = k then (k, v) :: rest else (k0, v0) :: setPairs rest k v

/-- Python subscript `x[k]`: `KeyError` on a missing dict key, `TypeError`
when subscripting a non-dict with a string key. -/
def PyVal.sub : PyVal → String → Except PyErr PyVal
  | .d m, k =>
    match findPairs m k with
    | some v => .ok v
    | none => .error (.keyError k)
  | _, _ => .error .typeError

/-- Python item assignment `x[k] = v`: `TypeError` unless `x` is a dict. -/
def PyVal.set : PyVal → String → PyVal → Except PyErr PyVal
  | .d m, k, v => .ok (.d (setPairs m k v))
  | _, _, _ => .error .typeError

mutual

/-- Python `repr()` of a value (string quoting via `\x27`, dicts in
insertion order; escape sequences inside reprs are not modelled). -/
def PyVal.pyrepr : PyVal → String
  | .s v => "\x27" ++ v ++ "\x27"
  | .i n => toString n
  | .d m => "\x7b" ++ pairsRepr m ++ "\x7d"

/-- Python `repr()` of the bindings of a dict, comma separated. -/
def pairsRepr : List (String × PyVal) → String
  | [] => ""
  | [(k, v)] => "\x27" ++ k ++ "\x27: " ++ PyVal.pyrepr v
  | (k, v) :: x :: rest =>
    "\x27" ++ k ++ "\x27: " ++ PyVal.pyrepr v ++ ", " ++ pairsRepr (x :: rest)

end

/-- Python `str()` as used by `"{}".format(x)` and `"%s" % x`. -/
def PyVal.fmt : PyVal → String
  | .s v => v
  | .i n => toString n
  | .d m => "\x7b" ++ pairsRepr m ++ "\x7d"

/-- An observable side effect of a stage, in program order. -/
inductive Effect where
  /-- `job.fileStore.logToMaster(label.format(args))`: the format-string
  prefix and the command tuple interpolated into it (empty when the message
  carries no command). -/
  | log (label : String) (args : List String)
  /-- `pipeline.run_and_log_command(command, logfile)`: the process
  execution boundary. -/
  | run (command : String) (logfile : String)
  /-- `utilities.touch(path)`. -/
  | touch (path : String)
  /-- `time.sleep(seconds)`. -/
  | sleep (seconds : Nat)
  /-- `sys.stdout.write(msg)`. -/
  | stdout (msg : String)
deriving DecidableEq

/-- Whether an effect is a `pipeline.run_and_log_command` invocation. -/
def Effect.isRun : Effect → Bool
  | .run _ _ => true
  | _ => false

/-- The process executions contained in a trace, in order. -/
def runsOf (l : List Effect) : List Effect := l.filter Effect.isRun

/-- Result of a stage call: the returned value or raised exception, with
the effect trace performed before returning/raising. -/
abbrev StageRes (α : Type) := Except PyErr α × List Effect

/-- Assemble a stage from the effects preceding the first configuration
lookup and the fallible construction phase producing the output value and
the remaining effects. -/
def runPlan (pre : List Effect) (plan : Except PyErr (α × List Effect)) :
    StageRes α :=
  match plan with
  | .error e => (.error e, pre)
  | .ok (a, effs) => (.ok a, pre ++ effs)

/-- Extract a constructed command list, defaulting to `[]` on an
exception (used only to state concrete counterexamples). -/
def cmdOf (x : Except PyErr (List String)) : List String :=
  match x with
  | .ok l => l
  | .error _ => []

/-- Render `cfg[k]` with `str()`, or `""` on an exception (used only to
state concrete counterexamples). -/
def cfgStr (cfg : PyVal) (k : String) : String :=
  match cfg.sub k with
  | .ok v => v.fmt
  | .error _ => ""

/-- Render `cfg[k1][k2]` with `str()`, or `""` on an exception (used only
to state concrete counterexamples). -/
def cfgStr2 (cfg : PyVal) (k1 k2 : String) : String :=
  match cfg.sub k1 >>= fun d => d.sub k2 with
  | .ok v => v.fmt
  | .error _ => ""

/-- A lookup that succeeds. -/
def ExOk (x : Except PyErr α) : Prop := ∃ a, x = Except.ok a

/-! ### ddb_ngsflow/annotation.py -/

/-- Output name derived by `snpeff` (annotation.py line 26). -/
def snpeff_output (sample ref : String) : String :=
  sample ++ ".snpEff." ++ ref ++ ".vcf"

/-- The argument tuple built by `snpeff` (annotation.py lines 29-35).  The
source omits the comma after `">"`, so Python's implicit string-literal
concatenation fuses `">"` with the output path into a single element. -/
def snpeff_command (cpu : Nat) (config : PyVal) (sample input_vcf : String) :
    Except PyErr (List String) := do
  let sd1 ← config.sub "snpeff"
  let ref ← sd1.sub "reference"
  let output_vcf := snpeff_output sample ref.fmt
  let sd2 ← config.sub "snpeff"
  let binv ← sd2.sub "bin"
  let sd3 ← config.sub "snpeff"
  let mem ← sd3.sub "max_mem"
  let sd4 ← config.sub "snpeff"
  let ref2 ← sd4.sub "reference"
  pure [binv.fmt, "-Xmx" ++ mem.fmt ++ "g", "-v", ref2.fmt, input_vcf,
        ">" ++ output_vcf]

/-- Construction phase of `snpeff`: output name, log file, command, and
the effects performed (annotation.py lines 26-38). -/
def snpeff_plan (cpu : Nat) (config : PyVal) (sample input_vcf : String) :
    Except PyErr (String × List Effect) := do
  let sd1 ← config.sub "snpeff"
  let ref ← sd1.sub "reference"
  let output_vcf := snpeff_output sample ref.fmt
  let logfile := sample ++ ".snpeff.log"
  let cmd ← snpeff_command cpu config sample input_vcf
  pure (output_vcf,
        [Effect.log "snpEff Command: " cmd,
         Effect.run (String.intercalate " " cmd) logfile])

/-- `snpeff(job, config, sample, input_vcf)` (annotation.py lines 15-40). -/
def snpeff (cpu : Nat) (config : PyVal) (sample input_vcf : String) :
    StageRes String :=
  runPlan [] (snpeff_plan cpu config sample input_vcf)

/-- Database name derived by `gemini` (annotation.py line 54); note it
reads `config['snpeff']['reference']`. -/
def gemini_db (sample ref : String) : String :=
  sample ++ ".snpEff." ++ ref ++ ".db"

/-- The argument tuple built by `gemini` (annotation.py lines 57-66). -/
def gemini_command (cpu : Nat) (config : PyVal) (sample input_vcf : String) :
    Except PyErr (List String) := do
  let sd1 ← config.sub "snpeff"
  let ref ← sd1.sub "reference"
  let db := gemini_db sample ref.fmt
  let gd1 ← config.sub "gemini"
  let binv ← gd1.sub "bin"
  let gd2 ← config.sub "gemini"
  let cores ← gd2.sub "num_cores"
  pure [binv.fmt, "load", "--cores", cores.fmt, "--save-info-string", "-v",
        input_vcf, "-t", "snpEff", db]

/-- Construction phase of `gemini` (annotation.py lines 54-69). -/
def gemini_plan (cpu : Nat) (config : PyVal) (sample input_vcf : String) :
    Except PyErr (String × List Effect) := do
  let sd1 ← config.sub "snpeff"
  let ref ← sd1.sub "reference"
  let db := gemini_db sample ref.fmt
  let logfile := sample ++ ".gemini.log"
  let cmd ← gemini_command cpu config sample input_vcf
  pure (db,
        [Effect.log "GEMINI Command: " cmd,
         Effect.run (String.intercalate " " cmd) logfile])

/-- `gemini(job, config, sample, input_vcf)` (annotation.py lines 43-71). -/
def gemini (cpu : Nat) (config : PyVal) (sample input_vcf : String) :
    StageRes String :=
  runPlan [] (gemini_plan cpu config sample input_vcf)

/-- Output name derived by `vcfanno` (annotation.py line 85). -/
def vcfanno_output (sample ref : String) : String :=
  sample ++ ".vcfanno.snpEff." ++ ref ++ ".vcf"

/-- The argument tuple built by `vcfanno` (annotation.py lines 88-96);
here `">"` and the output path are separate elements. -/
def vcfanno_command (cpu : Nat) (config : PyVal) (sample input_vcf : String) :
    Except PyErr (List String) := do
  let sd1 ← config.sub "snpeff"
  let ref ← sd1.sub "reference"
  let output_vcf := vcfanno_output sample ref.fmt
  let vd1 ← config.sub "vcfanno"
  let binv ← vd1.sub "bin"
  let vd2 ← config.sub "vcfanno"
  let cores ← vd2.sub "num_cores"
  let vd3 ← config.sub "vcfanno"
  let lua ← vd3.sub "lua"
  let vd4 ← config.sub "vcfanno"
  let conf ← vd4.sub "conf"
  pure [binv.fmt, "-p", cores.fmt, "--lua", lua.fmt, conf.fmt, input_vcf,
        ">", output_vcf]

/-- Construction phase of `vcfanno` (annotation.py lines 85-99); the
master-log label is the source's literal `"GEMINI Command: "`. -/
def vcfanno_plan (cpu : Nat) (config : PyVal) (sample input_vcf : String) :
    Except PyErr (String × List Effect) := do
  let sd1 ← config.sub "snpeff"
  let ref ← sd1.sub "reference"
  let output_vcf := vcfanno_output sample ref.fmt
  let logfile := sample ++ ".vcfanno.log"
  let cmd ← vcfanno_command cpu config sample input_vcf
  pure (output_vcf,
        [Effect.log "GEMINI Command: " cmd,
         Effect.run (String.intercalate " " cmd) logfile])

/-- `vcfanno(job, config, sample, input_vcf)` (annotation.py lines 74-101). -/
def vcfanno (cpu : Nat) (config : PyVal) (sample input_vcf : String) :
    StageRes String :=
  runPlan [] (vcfanno_plan cpu config sample input_vcf)

/-! ### ngsflow/gatk.py -/

/-- Output name derived by `diagnosetargets` (gatk.py line 33). -/
def diagnosetargets_output (sample : String) : String :=
  sample ++ ".diagnosetargets.vcf"

/-- The argument tuple built by `diagnosetargets` (gatk.py lines 37-60);
the heap size is the hardcoded literal `"-Xmx{}g".format(2)`. -/
def diagnosetargets_command (cpu : Nat) (config : PyVal)
    (sample input_bam : String) : Except PyErr (List String) := do
  let gd ← config.sub "gatk"
  let binv ← gd.sub "bin"
  let r ← config.sub "reference"
  let regions ← config.sub "regions"
  let clt ← config.sub "coverage_loci_threshold"
  let bmt ← config.sub "bad_mate_threshold"
  let ct ← config.sub "coverage_threshold"
  let qlt ← config.sub "quality_loci_threshold"
  pure ["java", "-Xmx2g", "-jar", binv.fmt, "-T", "DiagnoseTargets",
        "-R", r.fmt, "-L", regions.fmt,
        "--coverage_status_threshold", clt.fmt,
        "--bad_mate_status_threshold", bmt.fmt,
        "--minimum_coverage", ct.fmt,
        "--quality_status_threshold", qlt.fmt,
        "-I", input_bam, "-o", diagnosetargets_output sample,
        "--missing_intervals", sample ++ ".missing.intervals"]

/-- Construction phase of `diagnosetargets` (gatk.py lines 33-63). -/
def diagnosetargets_plan (cpu : Nat) (config : PyVal)
    (sample input_bam : String) : Except PyErr (String × List Effect) := do
  let logfile := sample ++ ".diagnose_targets.log"
  let cmd ← diagnosetargets_command cpu config sample input_bam
  pure (diagnosetargets_output sample,
        [Effect.log "GATK DiagnoseTargets Command: " cmd,
         Effect.run (String.intercalate " " cmd) logfile])

/-- `diagnosetargets(job, config, sample, input_bam)` (gatk.py
lines 20-65). -/
def diagnosetargets (cpu : Nat) (config : PyVal)
    (sample input_bam : String) : StageRes String :=
  runPlan [] (diagnosetargets_plan cpu config sample input_bam)

/-- Output name derived by `annotate_vcf` (gatk.py line 85). -/
def annotated_output (sample : String) : String :=
  sample ++ ".annotated.vcf"

/-- The argument tuple built by `annotate_vcf` (gatk.py lines 88-109). -/
def annotate_vcf_command (cpu : Nat) (config : PyVal)
    (sample input_vcf input_bam : String) (num_threads : Int) :
    Except PyErr (List String) := do
  let gd1 ← config.sub "gatk"
  let mem ← gd1.sub "max_mem"
  let gd2 ← config.sub "gatk"
  let binv ← gd2.sub "bin"
  let r ← config.sub "reference"
  let dbsnp ← config.sub "dbsnp"
  pure ["java", "-Xmx" ++ mem.fmt ++ "g", "-jar", binv.fmt,
        "-T", "VariantAnnotator", "-R", r.fmt, "-nt", toString num_threads,
        "--group", "StandardAnnotation", "--dbsnp", dbsnp.fmt,
        "-I", input_bam, "--variant", input_vcf, "-L", input_vcf,
        "-o", annotated_output sample]

/-- Construction phase of `annotate_vcf` (gatk.py lines 85-112). -/
def annotate_vcf_plan (cpu : Nat) (config : PyVal)
    (sample input_vcf input_bam : String) (num_threads : Int) :
    Except PyErr (String × List Effect) := do
  let logfile := sample ++ ".variantannotation.log"
  let cmd ← annotate_vcf_command cpu config sample input_vcf input_bam
              num_threads
  pure (annotated_output sample,
        [Effect.log "GATK VariantAnnotator Command: " cmd,
         Effect.run (String.intercalate " " cmd) logfile])

/-- `annotate_vcf(job, config, sample, input_vcf, input_bam, num_threads)`
(gatk.py lines 68-114). -/
def annotate_vcf (cpu : Nat) (config : PyVal)
    (sample input_vcf input_bam : String) (num_threads : Int) :
    StageRes String :=
  runPlan [] (annotate_vcf_plan cpu config sample input_vcf input_bam
                num_threads)

/-- Output name derived by `filter_variants` (gatk.py line 130). -/
def filtered_output (sample : String) : String :=
  sample ++ ".filtered.vcf"

/-- The argument tuple built by `filter_variants` (gatk.py lines 133-160);
the filter expressions carry their single quotes (written `\x27`). -/
def filter_variants_command (cpu : Nat) (config : PyVal)
    (sample input_vcf : String) : Except PyErr (List String) := do
  let gd1 ← config.sub "gatk"
  let mem ← gd1.sub "max_mem"
  let gd2 ← config.sub "gatk"
  let binv ← gd2.sub "bin"
  let r ← config.sub "reference"
  let ct ← config.sub "coverage_threshold"
  pure ["java", "-Xmx" ++ mem.fmt ++ "g", "-jar", binv.fmt,
        "-T", "VariantFiltration", "-R", r.fmt,
        "--filterExpression", "\x27MQ0 > 50\x27",
        "--filterName", "\x27HighMQ0\x27",
        "--filterExpression", "\x27DP < " ++ ct.fmt ++ "\x27",
        "--filterName", "\x27LowDepth\x27",
        "--filterExpression", "\x27QUAL < 10\x27",
        "--filterName", "\x27LowQual\x27",
        "--filterExpression", "\x27MQ < 10\x27",
        "--filterName", "\x27LowMappingQual\x27",
        "--variant", input_vcf, "-o", filtered_output sample]

/-- Construction phase of `filter_variants` (gatk.py lines 130-163). -/
def filter_variants_plan (cpu : Nat) (config : PyVal)
    (sample input_vcf : String) : Except PyErr (String × List Effect) := do
  let logfile := sample ++ ".variantfiltration.log"
  let cmd ← filter_variants_command cpu config sample input_vcf
  pure (filtered_output sample,
        [Effect.log "GATK VariantFiltration Command: " cmd,
         Effect.run (String.intercalate " " cmd) logfile])

/-- `filter_variants(job, config, sample, input_vcf)` (gatk.py
lines 117-165). -/
def filter_variants (cpu : Nat) (config : PyVal)
    (sample input_vcf : String) : StageRes String :=
  runPlan [] (filter_variants_plan cpu config sample input_vcf)

/-- One iteration of the `run_mark_duplicates` sample loop (gatk.py
lines 173-189): derives names, conditionally copies `bam` to
`sorted_bam`, sets `dedup_bam`, builds the MarkDuplicates instruction,
then redirects `working_bam`; returns the updated sample record and the
`(command, logfile)` instruction appended. -/
def mark_dup_step (tool_config : PyVal) (sample : PyVal) :
    Except PyErr (PyVal × (String × String)) := do
  let name1 ← sample.sub "name"
  let logfile := name1.fmt ++ ".markduplicates.log"
  let sample1 ←
    match sample.sub "bam" with
    | .ok b => sample.set "sorted_bam" b
    | .error (.keyError _) => pure sample
    | .error .typeError => .error .typeError
  let name2 ← sample1.sub "name"
  let sample2 ← sample1.set "dedup_bam"
                  (.s (name2.fmt ++ ".dedup.sorted.bam"))
  let name3 ← sample2.sub "name"
  let metrics := name3.fmt ++ ".dedup.metrics"
  let gd ← tool_config.sub "gatk"
  let mem ← gd.sub "max_mem"
  let pd ← tool_config.sub "picard"
  let pbin ← pd.sub "bin"
  let wb ← sample2.sub "working_bam"
  let db ← sample2.sub "dedup_bam"
  let command := "java -Xmx" ++ mem.fmt ++ "g -jar " ++ pbin.fmt ++
    " MarkDuplicates CREATE_INDEX=true INPUT=" ++ wb.fmt ++
    " OUTPUT=" ++ db.fmt ++ " METRICS_FILE=" ++ metrics ++
    " VALIDATION_STRINGENCY=LENIENT"
  let db2 ← sample2.sub "dedup_bam"
  let sample3 ← sample2.set "working_bam" db2
  pure (sample3, (command, logfile))

/-- The `for sample in sample_config` loop of `run_mark_duplicates`,
threading the in-place mutation of each sample record and accumulating
the instruction list in order. -/
def mark_dup_loop (tool_config : PyVal) :
    List PyVal → Except PyErr (List PyVal × List (String × String))
  | [] => .ok ([], [])
  | sm :: rest => do
    let (sm2, instr) ← mark_dup_step tool_config sm
    let (rest2, instrs) ← mark_dup_loop tool_config rest
    pure (sm2 :: rest2, instr :: instrs)

/-- `run_mark_duplicates(project_config, sample_config, tool_config,
resource_config)` (gatk.py lines 168-189): writes a banner to stdout,
builds the instruction list, mutates the sample records, and invokes no
command through `pipeline.run_and_log_command`; the Python function
returns `None`, and the updated sample records and accumulated
instructions are returned here to make the mutation observable. -/
def run_mark_duplicates (cpu : Nat) (project_config : PyVal)
    (sample_config : List PyVal) (tool_config resource_config : PyVal) :
    StageRes (List PyVal × List (String × String)) :=
  runPlan [Effect.stdout "Running MarkDuplicates\n"]
    ((mark_dup_loop tool_config sample_config).map fun r => (r, []))

/-- Output name derived by `add_or_replace_readgroups` (gatk.py
line 207). -/
def rg_output (sample : String) : String :=
  sample ++ ".rg.sorted.bam"

/-- The AddOrReplaceReadGroups argument tuple (gatk.py lines 211-222);
the executable is the flat `config['picard']` and the heap size comes
from `config['gatk']['max_mem']`. -/
def addrg_command (cpu : Nat) (config : PyVal)
    (sample input_bam : String) : Except PyErr (List String) := do
  let gd ← config.sub "gatk"
  let mem ← gd.sub "max_mem"
  let pic ← config.sub "picard"
  pure ["java", "-Xmx" ++ mem.fmt ++ "g", "-jar", pic.fmt,
        "AddOrReplaceReadGroups", "INPUT=" ++ input_bam,
        "OUTPUT=" ++ rg_output sample, "RGID=" ++ sample,
        "RGSM=" ++ sample, "RGLB=" ++ sample, "RGPL=illumina",
        "RGPU=miseq"]

/-- The BuildBamIndex argument tuple (gatk.py lines 224-229). -/
def buildindex_command (cpu : Nat) (config : PyVal)
    (sample : String) : Except PyErr (List String) := do
  let gd ← config.sub "gatk"
  let mem ← gd.sub "max_mem"
  let pic ← config.sub "picard"
  pure ["java", "-Xmx" ++ mem.fmt ++ "g", "-jar", pic.fmt,
        "BuildBamIndex", "INPUT=" ++ rg_output sample]

/-- Construction phase of `add_or_replace_readgroups` (gatk.py
lines 207-235): both commands are constructed, then each is logged and
run in turn. -/
def addrg_plan (cpu : Nat) (config : PyVal) (sample input_bam : String) :
    Except PyErr (String × List Effect) := do
  let logfile := sample ++ ".addreadgroups.log"
  let index_log := sample ++ ".buildindex.log"
  let cmd ← addrg_command cpu config sample input_bam
  let cmd2 ← buildindex_command cpu config sample
  pure (rg_output sample,
        [Effect.log "GATK AddOrReplaceReadGroupsCommand Command: " cmd,
         Effect.run (String.intercalate " " cmd) logfile,
         Effect.log "GATK BuildBamIndex Command: " cmd2,
         Effect.run (String.intercalate " " cmd2) index_log])

/-- `add_or_replace_readgroups(job, config, sample, input_bam)` (gatk.py
lines 192-237); the leading master-log message (line 205) precedes every
configuration lookup. -/
def add_or_replace_readgroups (cpu : Nat) (config : PyVal)
    (sample input_bam : String) : StageRes String :=
  runPlan
    [Effect.log ("Running AddOrReplaceReadGroups in sample: " ++ sample) []]
    (addrg_plan cpu config sample input_bam)

/-- Targets file name derived by `realign_target_creator` (gatk.py
line 253). -/
def targets_output (sample : String) : String :=
  sample ++ ".targets.intervals"

/-- The argument tuple built by `realign_target_creator` (gatk.py
lines 256-275); the `-jar` argument is the flat `config['gatk']` and the
tool name is the source's literal `IndelRealigner`. -/
def realign_target_creator_command (cpu : Nat) (config : PyVal)
    (sample input_bam : String) : Except PyErr (List String) := do
  let gd ← config.sub "gatk"
  let mem ← gd.sub "max_mem"
  let g ← config.sub "gatk"
  let r ← config.sub "reference"
  let i1 ← config.sub "indel1"
  let i2 ← config.sub "indel2"
  pure ["java", "-Xmx" ++ mem.fmt ++ "g", "-jar", g.fmt,
        "-T", "IndelRealigner", "-R", r.fmt, "-I", input_bam,
        "-o", targets_output sample, "-known", i1.fmt, "-known", i2.fmt,
        "-targetIntervals", targets_output sample,
        "--read_filter", "NotPrimaryAlignment"]

/-- Construction phase of `realign_target_creator` (gatk.py
lines 253-278). -/
def realign_target_creator_plan (cpu : Nat) (config : PyVal)
    (sample input_bam : String) : Except PyErr (String × List Effect) := do
  let targets_log := sample ++ ".targetcreation.log"
  let cmd ← realign_target_creator_command cpu config sample input_bam
  pure (targets_output sample,
        [Effect.log "GATK RealignerTargetCreator Command: " cmd,
         Effect.run (String.intercalate " " cmd) targets_log])

/-- `realign_target_creator(job, config, sample, input_bam)` (gatk.py
lines 240-280). -/
def realign_target_creator (cpu : Nat) (config : PyVal)
    (sample input_bam : String) : StageRes String :=
  runPlan [] (realign_target_creator_plan cpu config sample input_bam)

/-- Output name derived by `realign_indels` (gatk.py line 298). -/
def realigned_output (sample : String) : String :=
  sample ++ ".realigned.sorted.bam"

/-- The argument tuple built by `realign_indels` (gatk.py lines 301-318):
`-o` receives the caller-supplied `targets` path, `-nt` the machine's
CPU count, and the returned output BAM name appears nowhere. -/
def realign_indels_command (cpu : Nat) (config : PyVal)
    (sample input_bam targets : String) : Except PyErr (List String) := do
  let gd ← config.sub "gatk"
  let mem ← gd.sub "max_mem"
  let g ← config.sub "gatk"
  let r ← config.sub "reference"
  let i1 ← config.sub "indel1"
  let i2 ← config.sub "indel2"
  pure ["java", "-Xmx" ++ mem.fmt ++ "g", "-jar", g.fmt,
        "-T", "RealignerTargetCreator", "-R", r.fmt, "-I", input_bam,
        "-o", targets, "-known", i1.fmt, "-known", i2.fmt,
        "-nt", toString cpu]

/-- Construction phase of `realign_indels` (gatk.py lines 298-322): log,
touch the output BAM, then run. -/
def realign_indels_plan (cpu : Nat) (config : PyVal)
    (sample input_bam targets : String) :
    Except PyErr (String × List Effect) := do
  let realign_log := sample ++ ".realignindels.log"
  let cmd ← realign_indels_command cpu config sample input_bam targets
  pure (realigned_output sample,
        [Effect.log "GATK IndelRealigner Command: " cmd,
         Effect.touch (realigned_output sample),
         Effect.run (String.intercalate " " cmd) realign_log])

/-- `realign_indels(job, config, sample, input_bam, targets)` (gatk.py
lines 283-324). -/
def realign_indels (cpu : Nat) (config : PyVal)
    (sample input_bam targets : String) : StageRes String :=
  runPlan [] (realign_indels_plan cpu config sample input_bam targets)

/-- Output name derived by `recalibrator` (gatk.py line 340). -/
def recalibrated_output (sample : String) : String :=
  sample ++ ".recalibrated.sorted.bam"

/-- The BaseRecalibrator argument tuple (gatk.py lines 347-362); its `-o`
receives the `{sample}.recal` covariates file. -/
def baserecal_command (cpu : Nat) (config : PyVal)
    (sample input_bam : String) : Except PyErr (List String) := do
  let gd ← config.sub "gatk"
  let mem ← gd.sub "max_mem"
  let g ← config.sub "gatk"
  let r ← config.sub "reference"
  let dbsnp ← config.sub "dbsnp"
  pure ["java", "-Xmx" ++ mem.fmt ++ "g", "-jar", g.fmt,
        "-T", "BaseRecalibrator", "-R", r.fmt, "-I", input_bam,
        "-o", sample ++ ".recal", "--knownSites", dbsnp.fmt,
        "-nct", toString cpu]

/-- The PrintReads argument tuple (gatk.py lines 365-380); its `-BQSR`
receives the same `{sample}.recal` file. -/
def printreads_command (cpu : Nat) (config : PyVal)
    (sample input_bam : String) : Except PyErr (List String) := do
  let gd ← config.sub "gatk"
  let mem ← gd.sub "max_mem"
  let g ← config.sub "gatk"
  let r ← config.sub "reference"
  pure ["java", "-Xmx" ++ mem.fmt ++ "g", "-jar", g.fmt,
        "-T", "PrintReads", "-R", r.fmt, "-I", input_bam,
        "-o", recalibrated_output sample, "-BQSR", sample ++ ".recal",
        "-nct", toString cpu]

/-- The index-copy argument tuple (gatk.py lines 383-385). -/
def cp_command (sample : String) : List String :=
  ["cp", sample ++ ".recalibrated.sorted.bai",
   sample ++ ".recalibrated.sorted.bam.bai"]

/-- Construction phase of `recalibrator` (gatk.py lines 340-394): three
commands are constructed, then each is logged and run in turn. -/
def recalibrator_plan (cpu : Nat) (config : PyVal)
    (sample input_bam : String) : Except PyErr (String × List Effect) := do
  let recal_log := sample ++ ".recalibrate.log"
  let print_log := sample ++ ".printrecalibrated.log"
  let cp_log := sample ++ ".copy.log"
  let cmd1 ← baserecal_command cpu config sample input_bam
  let cmd2 ← printreads_command cpu config sample input_bam
  let cmd3 := cp_command sample
  pure (recalibrated_output sample,
        [Effect.log "GATK BaseRecalibrator Command: " cmd1,
         Effect.run (String.intercalate " " cmd1) recal_log,
         Effect.log "GATK PrintReads Command: " cmd2,
         Effect.run (String.intercalate " " cmd2) print_log,
         Effect.log "GATK Copy Command: " cmd3,
         Effect.run (String.intercalate " " cmd3) cp_log])

/-- `recalibrator(job, config, sample, input_bam)` (gatk.py
lines 327-396). -/
def recalibrator (cpu : Nat) (config : PyVal)
    (sample input_bam : String) : StageRes String :=
  runPlan [] (recalibrator_plan cpu config sample input_bam)

/-! ### ngsflow/variation/platypus.py -/

/-- Output name derived by `platypus_single` (platypus.py line 12). -/
def platypus_output (sample : String) : String :=
  sample ++ ".platypus.vcf"

/-- The argument tuple built by `platypus_single` (platypus.py
lines 16-26); the executable is the flat `config['platypus']` and
`--nCPU` carries the machine's CPU count. -/
def platypus_command (cpu : Nat) (config : PyVal)
    (sample input_bam : String) : Except PyErr (List String) := do
  let p ← config.sub "platypus"
  let r ← config.sub "reference"
  let regions ← config.sub "platypus_regions"
  pure [p.fmt, "callVariants", "--refFile=" ++ r.fmt,
        "--regions=" ++ regions.fmt, "--assemble=1",
        "--assembleBrokenPairs=1", "--filterDuplicates=0",
        "--nCPU=" ++ toString cpu,
        "--logFileName=" ++ sample ++ ".platypus_internal.log",
        "--bamFiles=" ++ input_bam,
        "--output=" ++ platypus_output sample]

/-- Construction phase of `platypus_single` (platypus.py lines 12-31):
the command is logged to the master log and then `time.sleep(2)` runs;
the `pipeline.run_and_log_command` call is commented out in the source
(line 29), so no command is executed. -/
def platypus_single_plan (cpu : Nat) (config : PyVal)
    (sample input_bam : String) : Except PyErr (String × List Effect) := do
  let cmd ← platypus_command cpu config sample input_bam
  pure (platypus_output sample,
        [Effect.log "Platypus Command: " cmd, Effect.sleep 2])

/-- `platypus_single(job, config, sample, input_bam)` (platypus.py
lines 9-32). -/
def platypus_single (cpu : Nat) (config : PyVal)
    (sample input_bam : String) : StageRes String :=
  runPlan [] (platypus_single_plan cpu config sample input_bam)

/-! ### Concrete fixtures for witnesses and counterexamples -/

/-- A complete configuration dictionary holding every key any stage
reads. -/
def cfgMain : PyVal := .d
  [("snpeff", .d [("reference", .s "GRCh37"), ("bin", .s "snpEff.jar"),
                  ("max_mem", .i 4)]),
   ("gemini", .d [("bin", .s "gemini"), ("num_cores", .i 8)]),
   ("vcfanno", .d [("bin", .s "vcfanno"), ("num_cores", .i 8),
                   ("lua", .s "custom.lua"), ("conf", .s "anno.conf")]),
   ("gatk", .d [("bin", .s "gatk.jar"), ("max_mem", .i 8)]),
   ("picard", .s "picard.jar"),
   ("platypus", .s "platypus.py"),
   ("reference", .s "ref.fa"),
   ("regions", .s "regions.bed"),
   ("platypus_regions", .s "platy.bed"),
   ("coverage_loci_threshold", .i 25),
   ("bad_mate_threshold", .i 50),
   ("coverage_threshold", .i 500),
   ("quality_loci_threshold", .i 25),
   ("dbsnp", .s "dbsnp.vcf"),
   ("indel1", .s "indel1.vcf"),
   ("indel2", .s "indel2.vcf")]

/-- `cfgMain` with the top-level `reference` replaced by `GRCh38.fa`. -/
def cfgAltRef : PyVal := .d
  [("snpeff", .d [("reference", .s "GRCh37"), ("bin", .s "snpEff.jar"),
                  ("max_mem", .i 4)]),
   ("gemini", .d [("bin", .s "gemini"), ("num_cores", .i 8)]),
   ("vcfanno", .d [("bin", .s "vcfanno"), ("num_cores", .i 8),
                   ("lua", .s "custom.lua"), ("conf", .s "anno.conf")]),
   ("gatk", .d [("bin", .s "gatk.jar"), ("max_mem", .i 8)]),
   ("picard", .s "picard.jar"),
   ("platypus", .s "platypus.py"),
   ("reference", .s "GRCh38.fa"),
   ("regions", .s "regions.bed"),
   ("platypus_regions", .s "platy.bed"),
   ("coverage_loci_threshold", .i 25),
   ("bad_mate_threshold", .i 50),
   ("coverage_threshold", .i 500),
   ("quality_loci_threshold", .i 25),
   ("dbsnp", .s "dbsnp.vcf"),
   ("indel1", .s "indel1.vcf"),
   ("indel2", .s "indel2.vcf")]

/-- A sample record for `run_mark_duplicates`, with no `bam` and no
`dedup_bam` key before the call. -/
def sampleA : PyVal := .d
  [("name", .s "S1"), ("working_bam", .s "S1.raw.bam")]

/-- The `working_bam` entry of the first updated sample record returned
by `run_mark_duplicates`, rendered with `str()` (used only to state a
concrete counterexample). -/
def firstSampleStr
    (r : StageRes (List PyVal × List (String × String))) (k : String) :
    String :=
  match r.1 with
  | .ok (sm :: _, _) =>
    match sm.sub k with
    | .ok v => v.fmt
    | .error _ => ""
  | _ => ""

/-- Tool configuration for run_mark_duplicates, whose picard entry is a
nested dict with a bin key. -/
def cfgTool : PyVal := .d
  [("gatk", .d [("max_mem", .i 8)]),
   ("picard", .d [("bin", .s "picard.jar")])]

@[simp] theorem ok_bind (a : α) (f : α → Except PyErr β) :
    (Except.ok a : Except PyErr α) >>= f = f a := rfl

@[simp] theorem err_bind (e : PyErr) (f : α → Except PyErr β) :
    (Except.error e : Except PyErr α) >>= f = Except.error e := rfl

@[simp] theorem pure_eq_ok (a : α) :
    (pure a : Except PyErr α) = Except.ok a := rfl

@[simp] theorem bind_eq_ok {x : Except PyErr α} {f : α → Except PyErr β}
    {b : β} :
    (x >>= f = Except.ok b) ↔ ∃ a, x = Except.ok a ∧ f a = Except.ok b := by
  cases x <;> simp

theorem runPlan_error (pre : List Effect)
    (p : Except PyErr (α × List Effect)) (e : PyErr)
    (h : (runPlan pre p).1 = .error e) : (runPlan pre p).2 = pre := by
  match p with
  | .error _ => rfl
  | .ok (a, effs) => simp [runPlan] at h

/-! ### Behavioral characterization lemmas (shared helpers) -/

theorem runPlan_ok (pre : List Effect)
    (p : Except PyErr (α × List Effect)) (a : α)
    (h : (runPlan pre p).1 = .ok a) : ∃ effs, p = .ok (a, effs) := by
  match p with
  | .error e => simp [runPlan] at h
  | .ok (b, effs) =>
    simp [runPlan] at h
    exact ⟨effs, by rw [h]⟩

theorem snpeff_command_spec (cpu : Nat) (config sd ref binv mem : PyVal)
    (sample input_vcf : String)
    (h1 : config.sub "snpeff" = .ok sd)
    (h2 : sd.sub "reference" = .ok ref)
    (h3 : sd.sub "bin" = .ok binv)
    (h4 : sd.sub "max_mem" = .ok mem) :
    snpeff_command cpu config sample input_vcf =
      .ok [binv.fmt, "-Xmx" ++ mem.fmt ++ "g", "-v", ref.fmt, input_vcf,
           ">" ++ snpeff_output sample ref.fmt] := by
  simp [snpeff_command, h1, h2, h3, h4]

theorem snpeff_spec (cpu : Nat) (config sd ref binv mem : PyVal)
    (sample input_vcf : String)
    (h1 : config.sub "snpeff" = .ok sd)
    (h2 : sd.sub "reference" = .ok ref)
    (h3 : sd.sub "bin" = .ok binv)
    (h4 : sd.sub "max_mem" = .ok mem) :
    snpeff cpu config sample input_vcf =
      (.ok (snpeff_output sample ref.fmt),
       [Effect.log "snpEff Command: "
          [binv.fmt, "-Xmx" ++ mem.fmt ++ "g", "-v", ref.fmt, input_vcf,
           ">" ++ snpeff_output sample ref.fmt],
        Effect.run (String.intercalate " "
          [binv.fmt, "-Xmx" ++ mem.fmt ++ "g", "-v", ref.fmt, input_vcf,
           ">" ++ snpeff_output sample ref.fmt])
          (sample ++ ".snpeff.log")]) := by
  simp [snpeff, snpeff_plan, snpeff_command, h1, h2, h3, h4, runPlan]

theorem snpeff_requires (cpu : Nat) (config : PyVal)
    (sample input_vcf out : String)
    (h : (snpeff cpu config sample input_vcf).1 = .ok out) :
    ExOk (config.sub "snpeff" >>= fun d => d.sub "reference") ∧
    ExOk (config.sub "snpeff" >>= fun d => d.sub "bin") ∧
    ExOk (config.sub "snpeff" >>= fun d => d.sub "max_mem") := by
  unfold snpeff at h
  cases hp : snpeff_plan cpu config sample input_vcf with
  | error e => rw [hp] at h; simp [runPlan] at h
  | ok p =>
    simp only [snpeff_plan, snpeff_command, bind_eq_ok, pure_eq_ok] at hp
    obtain ⟨sd, h1, ref, h2, cmd,
            ⟨sdA, h1a, refA, h2a, sdB, h1b, binv, h3, sdC, h1c, mem, h4,
             sdD, h1d, ref2, h2d, hcmd⟩, hpp⟩ := hp
    exact ⟨⟨ref, by simp [h1, h2]⟩, ⟨binv, by simp [h1b, h3]⟩,
           ⟨mem, by simp [h1c, h4]⟩⟩

theorem snpeff_err (cpu : Nat) (config : PyVal)
    (sample input_vcf : String) (e : PyErr)
    (h : (snpeff cpu config sample input_vcf).1 = .error e) :
    runsOf (snpeff cpu config sample input_vcf).2 = [] := by
  unfold snpeff at *
  rw [runPlan_error _ _ _ h]
  rfl

theorem gemini_command_spec (cpu : Nat) (config sd ref gd binv cores : PyVal)
    (sample input_vcf : String)
    (h1 : config.sub "snpeff" = .ok sd)
    (h2 : sd.sub "reference" = .ok ref)
    (h3 : config.sub "gemini" = .ok gd)
    (h4 : gd.sub "bin" = .ok binv)
    (h5 : gd.sub "num_cores" = .ok cores) :
    gemini_command cpu config sample input_vcf =
      .ok [binv.fmt, "load", "--cores", cores.fmt, "--save-info-string",
           "-v", input_vcf, "-t", "snpEff", gemini_db sample ref.fmt] := by
  simp [gemini_command, h1, h2, h3, h4, h5]

theorem gemini_spec (cpu : Nat) (config sd ref gd binv cores : PyVal)
    (sample input_vcf : String)
    (h1 : config.sub "snpeff" = .ok sd)
    (h2 : sd.sub "reference" = .ok ref)
    (h3 : config.sub "gemini" = .ok gd)
    (h4 : gd.sub "bin" = .ok binv)
    (h5 : gd.sub "num_cores" = .ok cores) :
    gemini cpu config sample input_vcf =
      (.ok (gemini_db sample ref.fmt),
       [Effect.log "GEMINI Command: "
          [binv.fmt, "load", "--cores", cores.fmt, "--save-info-string",
           "-v", input_vcf, "-t", "snpEff", gemini_db sample ref.fmt],
        Effect.run (String.intercalate " "
          [binv.fmt, "load", "--cores", cores.fmt, "--save-info-string",
           "-v", input_vcf, "-t", "snpEff", gemini_db sample ref.fmt])
          (sample ++ ".gemini.log")]) := by
  simp [gemini, gemini_plan, gemini_command, h1, h2, h3, h4, h5, runPlan]

theorem gemini_requires (cpu : Nat) (config : PyVal)
    (sample input_vcf out : String)
    (h : (gemini cpu config sample input_vcf).1 = .ok out) :
    ExOk (config.sub "snpeff" >>= fun d => d.sub "reference") ∧
    ExOk (config.sub "gemini" >>= fun d => d.sub "bin") ∧
    ExOk (config.sub "gemini" >>= fun d => d.sub "num_cores") := by
  unfold gemini at h
  cases hp : gemini_plan cpu config sample input_vcf with
  | error e => rw [hp] at h; simp [runPlan] at h
  | ok p =>
    simp only [gemini_plan, gemini_command, bind_eq_ok, pure_eq_ok] at hp
    obtain ⟨sd, h1, ref, h2, cmd,
            ⟨sdA, h1a, refA, h2a, gdA, h3a, binv, h4, gdB, h3b, cores, h5,
             hcmd⟩, hpp⟩ := hp
    exact ⟨⟨ref, by simp [h1, h2]⟩, ⟨binv, by simp [h3a, h4]⟩,
           ⟨cores, by simp [h3b, h5]⟩⟩

theorem gemini_err (cpu : Nat) (config : PyVal)
    (sample input_vcf : String) (e : PyErr)
    (h : (gemini cpu config sample input_vcf).1 = .error e) :
    runsOf (gemini cpu config sample input_vcf).2 = [] := by
  unfold gemini at *
  rw [runPlan_error _ _ _ h]
  rfl

theorem vcfanno_command_spec (cpu : Nat)
    (config sd ref vd binv cores lua conf : PyVal)
    (sample input_vcf : String)
    (h1 : config.sub "snpeff" = .ok sd)
    (h2 : sd.sub "reference" = .ok ref)
    (h3 : config.sub "vcfanno" = .ok vd)
    (h4 : vd.sub "bin" = .ok binv)
    (h5 : vd.sub "num_cores" = .ok cores)
    (h6 : vd.sub "lua" = .ok lua)
    (h7 : vd.sub "conf" = .ok conf) :
    vcfanno_command cpu config sample input_vcf =
      .ok [binv.fmt, "-p", cores.fmt, "--lua", lua.fmt, conf.fmt,
           input_vcf, ">", vcfanno_output sample ref.fmt] := by
  simp [vcfanno_command, h1, h2, h3, h4, h5, h6, h7]

theorem vcfanno_spec (cpu : Nat)
    (config sd ref vd binv cores lua conf : PyVal)
    (sample input_vcf : String)
    (h1 : config.sub "snpeff" = .ok sd)
    (h2 : sd.sub "reference" = .ok ref)
    (h3 : config.sub "vcfanno" = .ok vd)
    (h4 : vd.sub "bin" = .ok binv)
    (h5 : vd.sub "num_cores" = .ok cores)
    (h6 : vd.sub "lua" = .ok lua)
    (h7 : vd.sub "conf" = .ok conf) :
    vcfanno cpu config sample input_vcf =
      (.ok (vcfanno_output sample ref.fmt),
       [Effect.log "GEMINI Command: "
          [binv.fmt, "-p", cores.fmt, "--lua", lua.fmt, conf.fmt,
           input_vcf, ">", vcfanno_output sample ref.fmt],
        Effect.run (String.intercalate " "
          [binv.fmt, "-p", cores.fmt, "--lua", lua.fmt, conf.fmt,
           input_vcf, ">", vcfanno_output sample ref.fmt])
          (sample ++ ".vcfanno.log")]) := by
  simp [vcfanno, vcfanno_plan, vcfanno_command, h1, h2, h3, h4, h5, h6, h7,
        runPlan]

theorem vcfanno_requires (cpu : Nat) (config : PyVal)
    (sample input_vcf out : String)
    (h : (vcfanno cpu config sample input_vcf).1 = .ok out) :
    ExOk (config.sub "snpeff" >>= fun d => d.sub "reference") ∧
    ExOk (config.sub "vcfanno" >>= fun d => d.sub "bin") ∧
    ExOk (config.sub "vcfanno" >>= fun d => d.sub "num_cores") ∧
    ExOk (config.sub "vcfanno" >>= fun d => d.sub "lua") ∧
    ExOk (config.sub "vcfanno" >>= fun d => d.sub "conf") := by
  unfold vcfanno at h
  cases hp : vcfanno_plan cpu config sample input_vcf with
  | error e => rw [hp] at h; simp [runPlan] at h
  | ok p =>
    simp only [vcfanno_plan, vcfanno_command, bind_eq_ok, pure_eq_ok] at hp
    obtain ⟨sd, h1, ref, h2, cmd,
            ⟨sdA, h1a, refA, h2a, vdA, h3a, binv, h4, vdB, h3b, cores, h5,
             vdC, h3c, lua, h6, vdD, h3d, conf, h7, hcmd⟩, hpp⟩ := hp
    exact ⟨⟨ref, by simp [h1, h2]⟩, ⟨binv, by simp [h3a, h4]⟩,
           ⟨cores, by simp [h3b, h5]⟩, ⟨lua, by simp [h3c, h6]⟩,
           ⟨conf, by simp [h3d, h7]⟩⟩

theorem vcfanno_err (cpu : Nat) (config : PyVal)
    (sample input_vcf : String) (e : PyErr)
    (h : (vcfanno cpu config sample input_vcf).1 = .error e) :
    runsOf (vcfanno cpu config sample input_vcf).2 = [] := by
  unfold vcfanno at *
  rw [runPlan_error _ _ _ h]
  rfl

theorem diagnosetargets_command_spec (cpu : Nat)
    (config gd binv r regions clt bmt ct qlt : PyVal)
    (sample input_bam : String)
    (h1 : config.sub "gatk" = .ok gd)
    (h2 : gd.sub "bin" = .ok binv)
    (h3 : config.sub "reference" = .ok r)
    (h4 : config.sub "regions" = .ok regions)
    (h5 : config.sub "coverage_loci_threshold" = .ok clt)
    (h6 : config.sub "bad_mate_threshold" = .ok bmt)
    (h7 : config.sub "coverage_threshold" = .ok ct)
    (h8 : config.sub "quality_loci_threshold" = .ok qlt) :
    diagnosetargets_command cpu config sample input_bam =
      .ok ["java", "-Xmx2g", "-jar", binv.fmt, "-T", "DiagnoseTargets",
           "-R", r.fmt, "-L", regions.fmt,
           "--coverage_status_threshold", clt.fmt,
           "--bad_mate_status_threshold", bmt.fmt,
           "--minimum_coverage", ct.fmt,
           "--quality_status_threshold", qlt.fmt,
           "-I", input_bam, "-o", diagnosetargets_output sample,
           "--missing_intervals", sample ++ ".missing.intervals"] := by
  simp [diagnosetargets_command, h1, h2, h3, h4, h5, h6, h7, h8]

theorem diagnosetargets_spec (cpu : Nat)
    (config gd binv r regions clt bmt ct qlt : PyVal)
    (sample input_bam : String) (L : List String)
    (h1 : config.sub "gatk" = .ok gd)
    (h2 : gd.sub "bin" = .ok binv)
    (h3 : config.sub "reference" = .ok r)
    (h4 : config.sub "regions" = .ok regions)
    (h5 : config.sub "coverage_loci_threshold" = .ok clt)
    (h6 : config.sub "bad_mate_threshold" = .ok bmt)
    (h7 : config.sub "coverage_threshold" = .ok ct)
    (h8 : config.sub "quality_loci_threshold" = .ok qlt)
    (hc : diagnosetargets_command cpu config sample input_bam = .ok L) :
    diagnosetargets cpu config sample input_bam =
      (.ok (diagnosetargets_output sample),
       [Effect.log "GATK DiagnoseTargets Command: " L,
        Effect.run (String.intercalate " " L)
          (sample ++ ".diagnose_targets.log")]) := by
  simp [diagnosetargets, diagnosetargets_plan, hc, runPlan]

theorem diagnosetargets_requires (cpu : Nat) (config : PyVal)
    (sample input_bam out : String)
    (h : (diagnosetargets cpu config sample input_bam).1 = .ok out) :
    ExOk (config.sub "gatk" >>= fun d => d.sub "bin") ∧
    ExOk (config.sub "reference") ∧
    ExOk (config.sub "regions") ∧
    ExOk (config.sub "coverage_loci_threshold") ∧
    ExOk (config.sub "bad_mate_threshold") ∧
    ExOk (config.sub "coverage_threshold") ∧
    ExOk (config.sub "quality_loci_threshold") := by
  unfold diagnosetargets at h
  cases hp : diagnosetargets_plan cpu config sample input_bam with
  | error e => rw [hp] at h; simp [runPlan] at h
  | ok p =>
    simp only [diagnosetargets_plan, diagnosetargets_command, bind_eq_ok,
               pure_eq_ok] at hp
    obtain ⟨cmd, ⟨gd, h1, binv, h2, r, h3, regions, h4, clt, h5, bmt, h6,
            ct, h7, qlt, h8, hcmd⟩, hpp⟩ := hp
    exact ⟨⟨binv, by simp [h1, h2]⟩, ⟨r, h3⟩, ⟨regions, h4⟩, ⟨clt, h5⟩,
           ⟨bmt, h6⟩, ⟨ct, h7⟩, ⟨qlt, h8⟩⟩

theorem diagnosetargets_err (cpu : Nat) (config : PyVal)
    (sample input_bam : String) (e : PyErr)
    (h : (diagnosetargets cpu config sample input_bam).1 = .error e) :
    runsOf (diagnosetargets cpu config sample input_bam).2 = [] := by
  unfold diagnosetargets at *
  rw [runPlan_error _ _ _ h]
  rfl

theorem annotate_vcf_command_spec (cpu : Nat)
    (config gd mem binv r dbsnp : PyVal)
    (sample input_vcf input_bam : String) (num_threads : Int)
    (h1 : config.sub "gatk" = .ok gd)
    (h2 : gd.sub "max_mem" = .ok mem)
    (h3 : gd.sub "bin" = .ok binv)
    (h4 : config.sub "reference" = .ok r)
    (h5 : config.sub "dbsnp" = .ok dbsnp) :
    annotate_vcf_command cpu config sample input_vcf input_bam num_threads =
      .ok ["java", "-Xmx" ++ mem.fmt ++ "g", "-jar", binv.fmt,
           "-T", "VariantAnnotator", "-R", r.fmt,
           "-nt", toString num_threads,
           "--group", "StandardAnnotation", "--dbsnp", dbsnp.fmt,
           "-I", input_bam, "--variant", input_vcf, "-L", input_vcf,
           "-o", annotated_output sample] := by
  simp [annotate_vcf_command, h1, h2, h3, h4, h5]

theorem annotate_vcf_spec (cpu : Nat) (config : PyVal)
    (sample input_vcf input_bam : String) (num_threads : Int)
    (L : List String)
    (hc : annotate_vcf_command cpu config sample input_vcf input_bam
            num_threads = .ok L) :
    annotate_vcf cpu config sample input_vcf input_bam num_threads =
      (.ok (annotated_output sample),
       [Effect.log "GATK VariantAnnotator Command: " L,
        Effect.run (String.intercalate " " L)
          (sample ++ ".variantannotation.log")]) := by
  simp [annotate_vcf, annotate_vcf_plan, hc, runPlan]

theorem annotate_vcf_requires (cpu : Nat) (config : PyVal)
    (sample input_vcf input_bam out : String) (num_threads : Int)
    (h : (annotate_vcf cpu config sample input_vcf input_bam
            num_threads).1 = .ok out) :
    ExOk (config.sub "gatk" >>= fun d => d.sub "max_mem") ∧
    ExOk (config.sub "gatk" >>= fun d => d.sub "bin") ∧
    ExOk (config.sub "reference") ∧
    ExOk (config.sub "dbsnp") := by
  unfold annotate_vcf at h
  cases hp : annotate_vcf_plan cpu config sample input_vcf input_bam
               num_threads with
  | error e => rw [hp] at h; simp [runPlan] at h
  | ok p =>
    simp only [annotate_vcf_plan, annotate_vcf_command, bind_eq_ok,
               pure_eq_ok] at hp
    obtain ⟨cmd, ⟨gdA, h1a, mem, h2, gdB, h1b, binv, h3, r, h4, dbsnp, h5,
            hcmd⟩, hpp⟩ := hp
    exact ⟨⟨mem, by simp [h1a, h2]⟩, ⟨binv, by simp [h1b, h3]⟩, ⟨r, h4⟩,
           ⟨dbsnp, h5⟩⟩

theorem annotate_vcf_err (cpu : Nat) (config : PyVal)
    (sample input_vcf input_bam : String) (num_threads : Int) (e : PyErr)
    (h : (annotate_vcf cpu config sample input_vcf input_bam
            num_threads).1 = .error e) :
    runsOf (annotate_vcf cpu config sample input_vcf input_bam
              num_threads).2 = [] := by
  unfold annotate_vcf at *
  rw [runPlan_error _ _ _ h]
  rfl

theorem filter_variants_command_spec (cpu : Nat)
    (config gd mem binv r ct : PyVal) (sample input_vcf : String)
    (h1 : config.sub "gatk" = .ok gd)
    (h2 : gd.sub "max_mem" = .ok mem)
    (h3 : gd.sub "bin" = .ok binv)
    (h4 : config.sub "reference" = .ok r)
    (h5 : config.sub "coverage_threshold" = .ok ct) :
    filter_variants_command cpu config sample input_vcf =
      .ok ["java", "-Xmx" ++ mem.fmt ++ "g", "-jar", binv.fmt,
           "-T", "VariantFiltration", "-R", r.fmt,
           "--filterExpression", "\x27MQ0 > 50\x27",
           "--filterName", "\x27HighMQ0\x27",
           "--filterExpression", "\x27DP < " ++ ct.fmt ++ "\x27",
           "--filterName", "\x27LowDepth\x27",
           "--filterExpression", "\x27QUAL < 10\x27",
           "--filterName", "\x27LowQual\x27",
           "--filterExpression", "\x27MQ < 10\x27",
           "--filterName", "\x27LowMappingQual\x27",
           "--variant", input_vcf, "-o", filtered_output sample] := by
  simp [filter_variants_command, h1, h2, h3, h4, h5]

theorem filter_variants_spec (cpu : Nat) (config : PyVal)
    (sample input_vcf : String) (L : List String)
    (hc : filter_variants_command cpu config sample input_vcf = .ok L) :
    filter_variants cpu config sample input_vcf =
      (.ok (filtered_output sample),
       [Effect.log "GATK VariantFiltration Command: " L,
        Effect.run (String.intercalate " " L)
          (sample ++ ".variantfiltration.log")]) := by
  simp [filter_variants, filter_variants_plan, hc, runPlan]

theorem filter_variants_requires (cpu : Nat) (config : PyVal)
    (sample input_vcf out : String)
    (h : (filter_variants cpu config sample input_vcf).1 = .ok out) :
    ExOk (config.sub "gatk" >>= fun d => d.sub "max_mem") ∧
    ExOk (config.sub "gatk" >>= fun d => d.sub "bin") ∧
    ExOk (config.sub "reference") ∧
    ExOk (config.sub "coverage_threshold") := by
  unfold filter_variants at h
  cases hp : filter_variants_plan cpu config sample input_vcf with
  | error e => rw [hp] at h; simp [runPlan] at h
  | ok p =>
    simp only [filter_variants_plan, filter_variants_command, bind_eq_ok,
               pure_eq_ok] at hp
    obtain ⟨cmd, ⟨gdA, h1a, mem, h2, gdB, h1b, binv, h3, r, h4, ct, h5,
            hcmd⟩, hpp⟩ := hp
    exact ⟨⟨mem, by simp [h1a, h2]⟩, ⟨binv, by simp [h1b, h3]⟩, ⟨r, h4⟩,
           ⟨ct, h5⟩⟩

theorem filter_variants_err (cpu : Nat) (config : PyVal)
    (sample input_vcf : String) (e : PyErr)
    (h : (filter_variants cpu config sample input_vcf).1 = .error e) :
    runsOf (filter_variants cpu config sample input_vcf).2 = [] := by
  unfold filter_variants at *
  rw [runPlan_error _ _ _ h]
  rfl

theorem addrg_command_spec (cpu : Nat) (config gd mem pic : PyVal)
    (sample input_bam : String)
    (h1 : config.sub "gatk" = .ok gd)
    (h2 : gd.sub "max_mem" = .ok mem)
    (h3 : config.sub "picard" = .ok pic) :
    addrg_command cpu config sample input_bam =
      .ok ["java", "-Xmx" ++ mem.fmt ++ "g", "-jar", pic.fmt,
           "AddOrReplaceReadGroups", "INPUT=" ++ input_bam,
           "OUTPUT=" ++ rg_output sample, "RGID=" ++ sample,
           "RGSM=" ++ sample, "RGLB=" ++ sample, "RGPL=illumina",
           "RGPU=miseq"] := by
  simp [addrg_command, h1, h2, h3]

theorem buildindex_command_spec (cpu : Nat) (config gd mem pic : PyVal)
    (sample : String)
    (h1 : config.sub "gatk" = .ok gd)
    (h2 : gd.sub "max_mem" = .ok mem)
    (h3 : config.sub "picard" = .ok pic) :
    buildindex_command cpu config sample =
      .ok ["java", "-Xmx" ++ mem.fmt ++ "g", "-jar", pic.fmt,
           "BuildBamIndex", "INPUT=" ++ rg_output sample] := by
  simp [buildindex_command, h1, h2, h3]

theorem add_or_replace_readgroups_spec (cpu : Nat) (config : PyVal)
    (sample input_bam : String) (L L2 : List String)
    (hc : addrg_command cpu config sample input_bam = .ok L)
    (hc2 : buildindex_command cpu config sample = .ok L2) :
    add_or_replace_readgroups cpu config sample input_bam =
      (.ok (rg_output sample),
       [Effect.log ("Running AddOrReplaceReadGroups in sample: " ++ sample)
          [],
        Effect.log "GATK AddOrReplaceReadGroupsCommand Command: " L,
        Effect.run (String.intercalate " " L)
          (sample ++ ".addreadgroups.log"),
        Effect.log "GATK BuildBamIndex Command: " L2,
        Effect.run (String.intercalate " " L2)
          (sample ++ ".buildindex.log")]) := by
  simp [add_or_replace_readgroups, addrg_plan, hc, hc2, runPlan]

theorem add_or_replace_readgroups_requires (cpu : Nat) (config : PyVal)
    (sample input_bam out : String)
    (h : (add_or_replace_readgroups cpu config sample input_bam).1 =
           .ok out) :
    ExOk (config.sub "gatk" >>= fun d => d.sub "max_mem") ∧
    ExOk (config.sub "picard") := by
  unfold add_or_replace_readgroups at h
  cases hp : addrg_plan cpu config sample input_bam with
  | error e => rw [hp] at h; simp [runPlan] at h
  | ok p =>
    simp only [addrg_plan, addrg_command, buildindex_command, bind_eq_ok,
               pure_eq_ok] at hp
    obtain ⟨cmd, ⟨gdA, h1a, mem, h2, pic, h3, hcmd⟩, cmd2,
            ⟨gdB, h1b, mem2, h2b, pic2, h3b, hcmd2⟩, hpp⟩ := hp
    exact ⟨⟨mem, by simp [h1a, h2]⟩, ⟨pic, h3⟩⟩

theorem add_or_replace_readgroups_err (cpu : Nat) (config : PyVal)
    (sample input_bam : String) (e : PyErr)
    (h : (add_or_replace_readgroups cpu config sample input_bam).1 =
           .error e) :
    runsOf (add_or_replace_readgroups cpu config sample input_bam).2 =
      [] := by
  unfold add_or_replace_readgroups at *
  rw [runPlan_error _ _ _ h]
  rfl

theorem realign_target_creator_command_spec (cpu : Nat)
    (config gd mem r i1 i2 : PyVal) (sample input_bam : String)
    (h1 : config.sub "gatk" = .ok gd)
    (h2 : gd.sub "max_mem" = .ok mem)
    (h3 : config.sub "reference" = .ok r)
    (h4 : config.sub "indel1" = .ok i1)
    (h5 : config.sub "indel2" = .ok i2) :
    realign_target_creator_command cpu config sample input_bam =
      .ok ["java", "-Xmx" ++ mem.fmt ++ "g", "-jar", gd.fmt,
           "-T", "IndelRealigner", "-R", r.fmt, "-I", input_bam,
           "-o", targets_output sample, "-known", i1.fmt,
           "-known", i2.fmt, "-targetIntervals", targets_output sample,
           "--read_filter", "NotPrimaryAlignment"] := by
  simp [realign_target_creator_command, h1, h2, h3, h4, h5]

theorem realign_target_creator_spec (cpu : Nat) (config : PyVal)
    (sample input_bam : String) (L : List String)
    (hc : realign_target_creator_command cpu config sample input_bam =
            .ok L) :
    realign_target_creator cpu config sample input_bam =
      (.ok (targets_output sample),
       [Effect.log "GATK RealignerTargetCreator Command: " L,
        Effect.run (String.intercalate " " L)
          (sample ++ ".targetcreation.log")]) := by
  simp [realign_target_creator, realign_target_creator_plan, hc, runPlan]

theorem realign_target_creator_requires (cpu : Nat) (config : PyVal)
    (sample input_bam out : String)
    (h : (realign_target_creator cpu config sample input_bam).1 =
           .ok out) :
    ExOk (config.sub "gatk" >>= fun d => d.sub "max_mem") ∧
    ExOk (config.sub "reference") ∧
    ExOk (config.sub "indel1") ∧
    ExOk (config.sub "indel2") := by
  unfold realign_target_creator at h
  cases hp : realign_target_creator_plan cpu config sample input_bam with
  | error e => rw [hp] at h; simp [runPlan] at h
  | ok p =>
    simp only [realign_target_creator_plan,
               realign_target_creator_command, bind_eq_ok,
               pure_eq_ok] at hp
    obtain ⟨cmd, ⟨gdA, h1a, mem, h2, gdB, h1b, r, h3, i1, h4, i2, h5,
            hcmd⟩, hpp⟩ := hp
    exact ⟨⟨mem, by simp [h1a, h2]⟩, ⟨r, h3⟩, ⟨i1, h4⟩, ⟨i2, h5⟩⟩

theorem realign_target_creator_err (cpu : Nat) (config : PyVal)
    (sample input_bam : String) (e : PyErr)
    (h : (realign_target_creator cpu config sample input_bam).1 =
           .error e) :
    runsOf (realign_target_creator cpu config sample input_bam).2 = [] := by
  unfold realign_target_creator at *
  rw [runPlan_error _ _ _ h]
  rfl

theorem realign_indels_command_spec (cpu : Nat)
    (config gd mem r i1 i2 : PyVal) (sample input_bam targets : String)
    (h1 : config.sub "gatk" = .ok gd)
    (h2 : gd.sub "max_mem" = .ok mem)
    (h3 : config.sub "reference" = .ok r)
    (h4 : config.sub "indel1" = .ok i1)
    (h5 : config.sub "indel2" = .ok i2) :
    realign_indels_command cpu config sample input_bam targets =
      .ok ["java", "-Xmx" ++ mem.fmt ++ "g", "-jar", gd.fmt,
           "-T", "RealignerTargetCreator", "-R", r.fmt, "-I", input_bam,
           "-o", targets, "-known", i1.fmt, "-known", i2.fmt,
           "-nt", toString cpu] := by
  simp [realign_indels_command, h1, h2, h3, h4, h5]

theorem realign_indels_spec (cpu : Nat) (config : PyVal)
    (sample input_bam targets : String) (L : List String)
    (hc : realign_indels_command cpu config sample input_bam targets =
            .ok L) :
    realign_indels cpu config sample input_bam targets =
      (.ok (realigned_output sample),
       [Effect.log "GATK IndelRealigner Command: " L,
        Effect.touch (realigned_output sample),
        Effect.run (String.intercalate " " L)
          (sample ++ ".realignindels.log")]) := by
  simp [realign_indels, realign_indels_plan, hc, runPlan]

theorem realign_indels_requires (cpu : Nat) (config : PyVal)
    (sample input_bam targets out : String)
    (h : (realign_indels cpu config sample input_bam targets).1 =
           .ok out) :
    ExOk (config.sub "gatk" >>= fun d => d.sub "max_mem") ∧
    ExOk (config.sub "reference") ∧
    ExOk (config.sub "indel1") ∧
    ExOk (config.sub "indel2") := by
  unfold realign_indels at h
  cases hp : realign_indels_plan cpu config sample input_bam targets with
  | error e => rw [hp] at h; simp [runPlan] at h
  | ok p =>
    simp only [realign_indels_plan, realign_indels_command, bind_eq_ok,
               pure_eq_ok] at hp
    obtain ⟨cmd, ⟨gdA, h1a, mem, h2, gdB, h1b, r, h3, i1, h4, i2, h5,
            hcmd⟩, hpp⟩ := hp
    exact ⟨⟨mem, by simp [h1a, h2]⟩, ⟨r, h3⟩, ⟨i1, h4⟩, ⟨i2, h5⟩⟩

theorem realign_indels_err (cpu : Nat) (config : PyVal)
    (sample input_bam targets : String) (e : PyErr)
    (h : (realign_indels cpu config sample input_bam targets).1 =
           .error e) :
    runsOf (realign_indels cpu config sample input_bam targets).2 = [] := by
  unfold realign_indels at *
  rw [runPlan_error _ _ _ h]
  rfl

theorem baserecal_command_spec (cpu : Nat) (config gd mem r dbsnp : PyVal)
    (sample input_bam : String)
    (h1 : config.sub "gatk" = .ok gd)
    (h2 : gd.sub "max_mem" = .ok mem)
    (h3 : config.sub "reference" = .ok r)
    (h4 : config.sub "dbsnp" = .ok dbsnp) :
    baserecal_command cpu config sample input_bam =
      .ok ["java", "-Xmx" ++ mem.fmt ++ "g", "-jar", gd.fmt,
           "-T", "BaseRecalibrator", "-R", r.fmt, "-I", input_bam,
           "-o", sample ++ ".recal", "--knownSites", dbsnp.fmt,
           "-nct", toString cpu] := by
  simp [baserecal_command, h1, h2, h3, h4]

theorem printreads_command_spec (cpu : Nat) (config gd mem r : PyVal)
    (sample input_bam : String)
    (h1 : config.sub "gatk" = .ok gd)
    (h2 : gd.sub "max_mem" = .ok mem)
    (h3 : config.sub "reference" = .ok r) :
    printreads_command cpu config sample input_bam =
      .ok ["java", "-Xmx" ++ mem.fmt ++ "g", "-jar", gd.fmt,
           "-T", "PrintReads", "-R", r.fmt, "-I", input_bam,
           "-o", recalibrated_output sample, "-BQSR", sample ++ ".recal",
           "-nct", toString cpu] := by
  simp [printreads_command, h1, h2, h3]

theorem recalibrator_spec (cpu : Nat) (config : PyVal)
    (sample input_bam : String) (L1 L2 : List String)
    (hc1 : baserecal_command cpu config sample input_bam = .ok L1)
    (hc2 : printreads_command cpu config sample input_bam = .ok L2) :
    recalibrator cpu config sample input_bam =
      (.ok (recalibrated_output sample),
       [Effect.log "GATK BaseRecalibrator Command: " L1,
        Effect.run (String.intercalate " " L1)
          (sample ++ ".recalibrate.log"),
        Effect.log "GATK PrintReads Command: " L2,
        Effect.run (String.intercalate " " L2)
          (sample ++ ".printrecalibrated.log"),
        Effect.log "GATK Copy Command: " (cp_command sample),
        Effect.run (String.intercalate " " (cp_command sample))
          (sample ++ ".copy.log")]) := by
  simp [recalibrator, recalibrator_plan, hc1, hc2, runPlan]

theorem recalibrator_requires (cpu : Nat) (config : PyVal)
    (sample input_bam out : String)
    (h : (recalibrator cpu config sample input_bam).1 = .ok out) :
    ExOk (config.sub "gatk" >>= fun d => d.sub "max_mem") ∧
    ExOk (config.sub "reference") ∧
    ExOk (config.sub "dbsnp") := by
  unfold recalibrator at h
  cases hp : recalibrator_plan cpu config sample input_bam with
  | error e => rw [hp] at h; simp [runPlan] at h
  | ok p =>
    simp only [recalibrator_plan, baserecal_command, printreads_command,
               bind_eq_ok, pure_eq_ok] at hp
    obtain ⟨cmd1, ⟨gdA, h1a, mem, h2, gdB, h1b, r, h3, dbsnp, h4, hcmd1⟩,
            cmd2, ⟨gdC, h1c, mem2, h2c, gdD, h1d, r2, h3c, hcmd2⟩,
            hpp⟩ := hp
    exact ⟨⟨mem, by simp [h1a, h2]⟩, ⟨r, h3⟩, ⟨dbsnp, h4⟩⟩

theorem recalibrator_err (cpu : Nat) (config : PyVal)
    (sample input_bam : String) (e : PyErr)
    (h : (recalibrator cpu config sample input_bam).1 = .error e) :
    runsOf (recalibrator cpu config sample input_bam).2 = [] := by
  unfold recalibrator at *
  rw [runPlan_error _ _ _ h]
  rfl

theorem platypus_command_spec (cpu : Nat) (config p r regions : PyVal)
    (sample input_bam : String)
    (h1 : config.sub "platypus" = .ok p)
    (h2 : config.sub "reference" = .ok r)
    (h3 : config.sub "platypus_regions" = .ok regions) :
    platypus_command cpu config sample input_bam =
      .ok [p.fmt, "callVariants", "--refFile=" ++ r.fmt,
           "--regions=" ++ regions.fmt, "--assemble=1",
           "--assembleBrokenPairs=1", "--filterDuplicates=0",
           "--nCPU=" ++ toString cpu,
           "--logFileName=" ++ sample ++ ".platypus_internal.log",
           "--bamFiles=" ++ input_bam,
           "--output=" ++ platypus_output sample] := by
  simp [platypus_command, h1, h2, h3]

theorem platypus_single_spec (cpu : Nat) (config : PyVal)
    (sample input_bam : String) (L : List String)
    (hc : platypus_command cpu config sample input_bam = .ok L) :
    platypus_single cpu config sample input_bam =
      (.ok (platypus_output sample),
       [Effect.log "Platypus Command: " L, Effect.sleep 2]) := by
  simp [platypus_single, platypus_single_plan, hc, runPlan]

theorem platypus_single_requires (cpu : Nat) (config : PyVal)
    (sample input_bam out : String)
    (h : (platypus_single cpu config sample input_bam).1 = .ok out) :
    ExOk (config.sub "platypus") ∧
    ExOk (config.sub "reference") ∧
    ExOk (config.sub "platypus_regions") := by
  unfold platypus_single at h
  cases hp : platypus_single_plan cpu config sample input_bam with
  | error e => rw [hp] at h; simp [runPlan] at h
  | ok p =>
    simp only [platypus_single_plan, platypus_command, bind_eq_ok,
               pure_eq_ok] at hp
    obtain ⟨cmd, ⟨pv, h1, r, h2, regions, h3, hcmd⟩, hpp⟩ := hp
    exact ⟨⟨pv, h1⟩, ⟨r, h2⟩, ⟨regions, h3⟩⟩

/-- `platypus_single` never reaches the process-execution boundary: its
`pipeline.run_and_log_command` call is commented out in the source. -/
theorem platypus_single_no_runs (cpu : Nat) (config : PyVal)
    (sample input_bam : String) :
    runsOf (platypus_single cpu config sample input_bam).2 = [] := by
  unfold platypus_single platypus_single_plan
  cases hc : platypus_command cpu config sample input_bam with
  | error e => simp [hc, runPlan, runsOf]
  | ok L => simp [hc, runPlan, runsOf, List.filter, Effect.isRun]

/-- `run_mark_duplicates` never reaches the process-execution boundary:
it only accumulates instructions. -/
theorem run_mark_duplicates_no_runs (cpu : Nat) (project_config : PyVal)
    (sample_config : List PyVal) (tool_config resource_config : PyVal) :
    runsOf (run_mark_duplicates cpu project_config sample_config
              tool_config resource_config).2 = [] := by
  unfold run_mark_duplicates
  cases hl : mark_dup_loop tool_config sample_config with
  | error e => simp [hl, runPlan, runsOf, Except.map, Effect.isRun]
  | ok r =>
    simp [hl, runPlan, runsOf, Except.map, List.filter, Effect.isRun]

@[simp] theorem fmt_s (v : String) : (PyVal.s v).fmt = v := rfl

theorem findPairs_set_eq (m : List (String × PyVal)) (k : String)
    (v : PyVal) : findPairs (setPairs m k v) k = some v := by
  induction m with
  | nil => simp [setPairs, findPairs]
  | cons p rest ih =>
    obtain ⟨k0, v0⟩ := p
    by_cases h : k0 = k
    · simp [setPairs, h, findPairs]
    · simp [setPairs, h, findPairs, ih]

theorem findPairs_set_ne (m : List (String × PyVal)) (k k2 : String)
    (v : PyVal) (h : k2 ≠ k) :
    findPairs (setPairs m k v) k2 = findPairs m k2 := by
  have hne : ¬k = k2 := fun he => h he.symm
  induction m with
  | nil => simp [setPairs, findPairs, hne]
  | cons p rest ih =>
    obtain ⟨k0, v0⟩ := p
    by_cases hk : k0 = k
    · subst hk
      simp only [setPairs, if_pos rfl, findPairs]
      rw [if_neg hne, if_neg hne]
    · simp only [setPairs, if_neg hk, findPairs]
      by_cases hk2 : k0 = k2
      · simp [hk2]
      · simp [hk2, ih]

theorem sub_set_eq (m : List (String × PyVal)) (k : String) (v : PyVal) :
    (PyVal.d (setPairs m k v)).sub k = .ok v := by
  simp [PyVal.sub, findPairs_set_eq]

theorem sub_set_ne (m : List (String × PyVal)) (k k2 : String) (v : PyVal)
    (h : k2 ≠ k) :
    (PyVal.d (setPairs m k v)).sub k2 = (PyVal.d m).sub k2 := by
  simp [PyVal.sub, findPairs_set_ne m k k2 v h]

/-- Behavior of one `run_mark_duplicates` loop iteration on a sample
record without a `bam` key: `dedup_bam` is written, the MarkDuplicates
instruction is built from `tool_config['gatk']['max_mem']`,
`tool_config['picard']['bin']` and the sample's prior `working_bam`, and
then `working_bam` is redirected to the new `dedup_bam`. -/
theorem mark_dup_step_spec (tool_config : PyVal)
    (m : List (String × PyVal)) (nm gd mem pd pbin wb : PyVal)
    (hname : (PyVal.d m).sub "name" = .ok nm)
    (hbam : (PyVal.d m).sub "bam" = .error (.keyError "bam"))
    (hg : tool_config.sub "gatk" = .ok gd)
    (hmem : gd.sub "max_mem" = .ok mem)
    (hpic : tool_config.sub "picard" = .ok pd)
    (hpbin : pd.sub "bin" = .ok pbin)
    (hwb : (PyVal.d m).sub "working_bam" = .ok wb) :
    mark_dup_step tool_config (.d m) =
      .ok (.d (setPairs
                (setPairs m "dedup_bam"
                  (.s (nm.fmt ++ ".dedup.sorted.bam")))
                "working_bam" (.s (nm.fmt ++ ".dedup.sorted.bam"))),
           ("java -Xmx" ++ mem.fmt ++ "g -jar " ++ pbin.fmt ++
              " MarkDuplicates CREATE_INDEX=true INPUT=" ++ wb.fmt ++
              " OUTPUT=" ++ (nm.fmt ++ ".dedup.sorted.bam") ++
              " METRICS_FILE=" ++ (nm.fmt ++ ".dedup.metrics") ++
              " VALIDATION_STRINGENCY=LENIENT",
            nm.fmt ++ ".markduplicates.log")) := by
  have e1 : (PyVal.d (setPairs m "dedup_bam"
               (.s (nm.fmt ++ ".dedup.sorted.bam")))).sub "name" =
              .ok nm := by
    rw [sub_set_ne _ _ _ _ (by decide)]
    exact hname
  have e2 : (PyVal.d (setPairs m "dedup_bam"
               (.s (nm.fmt ++ ".dedup.sorted.bam")))).sub "working_bam" =
              .ok wb := by
    rw [sub_set_ne _ _ _ _ (by decide)]
    exact hwb
  have e3 : (PyVal.d (setPairs m "dedup_bam"
               (.s (nm.fmt ++ ".dedup.sorted.bam")))).sub "dedup_bam" =
              .ok (.s (nm.fmt ++ ".dedup.sorted.bam")) :=
    sub_set_eq _ _ _
  simp [mark_dup_step, hname, hbam, PyVal.set, e1, e2, e3, hg, hmem,
        hpic, hpbin]

/-- `run_mark_duplicates` on a single-element sample list, in terms of
one loop iteration. -/
theorem run_mark_duplicates_single (cpu : Nat)
    (project_config : PyVal) (sm sm2 : PyVal)
    (tool_config resource_config : PyVal) (instr : String × String)
    (hstep : mark_dup_step tool_config sm = .ok (sm2, instr)) :
    run_mark_duplicates cpu project_config [sm] tool_config
        resource_config =
      (.ok ([sm2], [instr]), [Effect.stdout "Running MarkDuplicates\n"]) := by
  simp [run_mark_duplicates, mark_dup_loop, hstep, runPlan, Except.map]

/-! ### String facts used for naming-uniqueness and non-occurrence -/

theorem append_inner_inj (s t r1 r2 : String)
    (h : s ++ r1 ++ t = s ++ r2 ++ t) : r1 = r2 := by
  have hd : (s ++ r1 ++ t).data = (s ++ r2 ++ t).data := by rw [h]
  simp only [String.data_append] at hd
  have h2 := List.append_cancel_right hd
  have h3 := List.append_cancel_left h2
  cases r1; cases r2; exact congrArg String.mk h3

theorem ne_of_last_ne (a b : String)
    (h : a.data.getLast? ≠ b.data.getLast?) : a ≠ b :=
  fun he => h (by rw [he])

theorem append_last (s t : String) (c : Char)
    (h : t.data.getLast? = some c) :
    (s ++ t).data.getLast? = some c := by
  rw [String.data_append, List.getLast?_append, h]
  rfl

/-! ### Claim theorems -/

/-- C3: for sample S1 and a configuration whose snpeff.reference is
GRCh37 (with the other snpeff keys present), snpeff returns the output
path S1.snpEff.GRCh37.vcf and its only process execution logs to
S1.snpeff.log. -/
theorem C3_snpeff_names (cpu : Nat) (config sd binv mem : PyVal)
    (input_vcf : String)
    (h1 : config.sub "snpeff" = .ok sd)
    (h2 : sd.sub "reference" = .ok (.s "GRCh37"))
    (h3 : sd.sub "bin" = .ok binv)
    (h4 : sd.sub "max_mem" = .ok mem) :
    (snpeff cpu config "S1" input_vcf).1 = .ok "S1.snpEff.GRCh37.vcf" ∧
    ∀ c lf, Effect.run c lf ∈ (snpeff cpu config "S1" input_vcf).2 →
      lf = "S1.snpeff.log" := by
  rw [snpeff_spec cpu config sd (.s "GRCh37") binv mem "S1" input_vcf
        h1 h2 h3 h4]
  refine ⟨rfl, ?_⟩
  intro c lf hmem
  simp only [List.mem_cons, List.mem_singleton] at hmem
  rcases hmem with h | h | h
  · exact absurd h (by simp)
  · injection h with hc hl
  · exact absurd h (by simp)

/-- Witness for C3 at a concrete configuration. -/
theorem C3_witness :
    (snpeff 4 cfgMain "S1" "in.vcf").1 = .ok "S1.snpEff.GRCh37.vcf" ∧
    ∀ c lf, Effect.run c lf ∈ (snpeff 4 cfgMain "S1" "in.vcf").2 →
      lf = "S1.snpeff.log" :=
  C3_snpeff_names 4 cfgMain
    (.d [("reference", .s "GRCh37"), ("bin", .s "snpEff.jar"),
         ("max_mem", .i 4)])
    (.s "snpEff.jar") (.i 4) "in.vcf" rfl rfl rfl rfl

/-- C1 counterexample: platypus_single returns the derived output path
but performs no process execution at all — the
pipeline.run_and_log_command call is commented out in the source. -/
theorem C1_counterexample :
    (platypus_single 4 cfgMain "S1" "in.bam").1 = .ok "S1.platypus.vcf" ∧
    runsOf (platypus_single 4 cfgMain "S1" "in.bam").2 = [] :=
  ⟨rfl, rfl⟩

/-- C1 (amended): each stage except platypus_single and
run_mark_duplicates executes its constructed command(s) through
pipeline.run_and_log_command and returns the derived output path;
platypus_single constructs and logs its command and returns the derived
path without executing anything; run_mark_duplicates builds instructions
without executing anything and returns no path. -/
theorem C1_stage_invocation :
    (∀ cpu config sd ref binv mem (sample input_vcf : String),
      config.sub "snpeff" = .ok sd → sd.sub "reference" = .ok ref →
      sd.sub "bin" = .ok binv → sd.sub "max_mem" = .ok mem →
      ∃ L, snpeff_command cpu config sample input_vcf = .ok L ∧
        snpeff cpu config sample input_vcf =
          (.ok (snpeff_output sample ref.fmt),
           [Effect.log "snpEff Command: " L,
            Effect.run (String.intercalate " " L)
              (sample ++ ".snpeff.log")])) ∧
    (∀ cpu config sd ref gd binv cores (sample input_vcf : String),
      config.sub "snpeff" = .ok sd → sd.sub "reference" = .ok ref →
      config.sub "gemini" = .ok gd → gd.sub "bin" = .ok binv →
      gd.sub "num_cores" = .ok cores →
      ∃ L, gemini_command cpu config sample input_vcf = .ok L ∧
        gemini cpu config sample input_vcf =
          (.ok (gemini_db sample ref.fmt),
           [Effect.log "GEMINI Command: " L,
            Effect.run (String.intercalate " " L)
              (sample ++ ".gemini.log")])) ∧
    (∀ cpu config sd ref vd binv cores lua conf (sample input_vcf : String),
      config.sub "snpeff" = .ok sd → sd.sub "reference" = .ok ref →
      config.sub "vcfanno" = .ok vd → vd.sub "bin" = .ok binv →
      vd.sub "num_cores" = .ok cores → vd.sub "lua" = .ok lua →
      vd.sub "conf" = .ok conf →
      ∃ L, vcfanno_command cpu config sample input_vcf = .ok L ∧
        vcfanno cpu config sample input_vcf =
          (.ok (vcfanno_output sample ref.fmt),
           [Effect.log "GEMINI Command: " L,
            Effect.run (String.intercalate " " L)
              (sample ++ ".vcfanno.log")])) ∧
    (∀ cpu config gd binv r regions clt bmt ct qlt
       (sample input_bam : String),
      config.sub "gatk" = .ok gd → gd.sub "bin" = .ok binv →
      config.sub "reference" = .ok r → config.sub "regions" = .ok regions →
      config.sub "coverage_loci_threshold" = .ok clt →
      config.sub "bad_mate_threshold" = .ok bmt →
      config.sub "coverage_threshold" = .ok ct →
      config.sub "quality_loci_threshold" = .ok qlt →
      ∃ L, diagnosetargets_command cpu config sample input_bam = .ok L ∧
        diagnosetargets cpu config sample input_bam =
          (.ok (diagnosetargets_output sample),
           [Effect.log "GATK DiagnoseTargets Command: " L,
            Effect.run (String.intercalate " " L)
              (sample ++ ".diagnose_targets.log")])) ∧
    (∀ cpu config (sample input_vcf input_bam : String) (num_threads : Int)
       L,
      annotate_vcf_command cpu config sample input_vcf input_bam
          num_threads = .ok L →
      annotate_vcf cpu config sample input_vcf input_bam num_threads =
        (.ok (annotated_output sample),
         [Effect.log "GATK VariantAnnotator Command: " L,
          Effect.run (String.intercalate " " L)
            (sample ++ ".variantannotation.log")])) ∧
    (∀ cpu config (sample input_vcf : String) L,
      filter_variants_command cpu config sample input_vcf = .ok L →
      filter_variants cpu config sample input_vcf =
        (.ok (filtered_output sample),
         [Effect.log "GATK VariantFiltration Command: " L,
          Effect.run (String.intercalate " " L)
            (sample ++ ".variantfiltration.log")])) ∧
    (∀ cpu config (sample input_bam : String) L L2,
      addrg_command cpu config sample input_bam = .ok L →
      buildindex_command cpu config sample = .ok L2 →
      add_or_replace_readgroups cpu config sample input_bam =
        (.ok (rg_output sample),
         [Effect.log
            ("Running AddOrReplaceReadGroups in sample: " ++ sample) [],
          Effect.log "GATK AddOrReplaceReadGroupsCommand Command: " L,
          Effect.run (String.intercalate " " L)
            (sample ++ ".addreadgroups.log"),
          Effect.log "GATK BuildBamIndex Command: " L2,
          Effect.run (String.intercalate " " L2)
            (sample ++ ".buildindex.log")])) ∧
    (∀ cpu config (sample input_bam : String) L,
      realign_target_creator_command cpu config sample input_bam = .ok L →
      realign_target_creator cpu config sample input_bam =
        (.ok (targets_output sample),
         [Effect.log "GATK RealignerTargetCreator Command: " L,
          Effect.run (String.intercalate " " L)
            (sample ++ ".targetcreation.log")])) ∧
    (∀ cpu config (sample input_bam targets : String) L,
      realign_indels_command cpu config sample input_bam targets = .ok L →
      realign_indels cpu config sample input_bam targets =
        (.ok (realigned_output sample),
         [Effect.log "GATK IndelRealigner Command: " L,
          Effect.touch (realigned_output sample),
          Effect.run (String.intercalate " " L)
            (sample ++ ".realignindels.log")])) ∧
    (∀ cpu config (sample input_bam : String) L1 L2,
      baserecal_command cpu config sample input_bam = .ok L1 →
      printreads_command cpu config sample input_bam = .ok L2 →
      recalibrator cpu config sample input_bam =
        (.ok (recalibrated_output sample),
         [Effect.log "GATK BaseRecalibrator Command: " L1,
          Effect.run (String.intercalate " " L1)
            (sample ++ ".recalibrate.log"),
          Effect.log "GATK PrintReads Command: " L2,
          Effect.run (String.intercalate " " L2)
            (sample ++ ".printrecalibrated.log"),
          Effect.log "GATK Copy Command: " (cp_command sample),
          Effect.run (String.intercalate " " (cp_command sample))
            (sample ++ ".copy.log")])) ∧
    (∀ cpu config (sample input_bam : String) L,
      platypus_command cpu config sample input_bam = .ok L →
      platypus_single cpu config sample input_bam =
        (.ok (platypus_output sample),
         [Effect.log "Platypus Command: " L, Effect.sleep 2])) ∧
    (∀ cpu project_config sample_config tool_config resource_config,
      runsOf (run_mark_duplicates cpu project_config sample_config
                tool_config resource_config).2 = []) := by
  refine ⟨?_, ?_, ?_, ?_, ?_, ?_, ?_, ?_, ?_, ?_, ?_, ?_⟩
  · intro cpu config sd ref binv mem sample input_vcf h1 h2 h3 h4
    exact ⟨_, snpeff_command_spec cpu config sd ref binv mem sample
               input_vcf h1 h2 h3 h4,
           snpeff_spec cpu config sd ref binv mem sample input_vcf
             h1 h2 h3 h4⟩
  · intro cpu config sd ref gd binv cores sample input_vcf h1 h2 h3 h4 h5
    exact ⟨_, gemini_command_spec cpu config sd ref gd binv cores sample
               input_vcf h1 h2 h3 h4 h5,
           gemini_spec cpu config sd ref gd binv cores sample input_vcf
             h1 h2 h3 h4 h5⟩
  · intro cpu config sd ref vd binv cores lua conf sample input_vcf
      h1 h2 h3 h4 h5 h6 h7
    exact ⟨_, vcfanno_command_spec cpu config sd ref vd binv cores lua conf
               sample input_vcf h1 h2 h3 h4 h5 h6 h7,
           vcfanno_spec cpu config sd ref vd binv cores lua conf sample
             input_vcf h1 h2 h3 h4 h5 h6 h7⟩
  · intro cpu config gd binv r regions clt bmt ct qlt sample input_bam
      h1 h2 h3 h4 h5 h6 h7 h8
    have hc := diagnosetargets_command_spec cpu config gd binv r regions
      clt bmt ct qlt sample input_bam h1 h2 h3 h4 h5 h6 h7 h8
    exact ⟨_, hc, diagnosetargets_spec cpu config gd binv r regions clt
               bmt ct qlt sample input_bam _ h1 h2 h3 h4 h5 h6 h7 h8 hc⟩
  · intro cpu config sample input_vcf input_bam num_threads L hc
    exact annotate_vcf_spec cpu config sample input_vcf input_bam
      num_threads L hc
  · intro cpu config sample input_vcf L hc
    exact filter_variants_spec cpu config sample input_vcf L hc
  · intro cpu config sample input_bam L L2 hc hc2
    exact add_or_replace_readgroups_spec cpu config sample input_bam L L2
      hc hc2
  · intro cpu config sample input_bam L hc
    exact realign_target_creator_spec cpu config sample input_bam L hc
  · intro cpu config sample input_bam targets L hc
    exact realign_indels_spec cpu config sample input_bam targets L hc
  · intro cpu config sample input_bam L1 L2 hc1 hc2
    exact recalibrator_spec cpu config sample input_bam L1 L2 hc1 hc2
  · intro cpu config sample input_bam L hc
    exact platypus_single_spec cpu config sample input_bam L hc
  · intro cpu project_config sample_config tool_config resource_config
    exact run_mark_duplicates_no_runs cpu project_config sample_config
      tool_config resource_config

/-- Witness for C1 at a concrete configuration: the snpeff clause. -/
theorem C1_witness :
    ∃ L, snpeff_command 4 cfgMain "S1" "in.vcf" = .ok L ∧
      snpeff 4 cfgMain "S1" "in.vcf" =
        (.ok (snpeff_output "S1" (PyVal.s "GRCh37").fmt),
         [Effect.log "snpEff Command: " L,
          Effect.run (String.intercalate " " L) ("S1" ++ ".snpeff.log")]) :=
  C1_stage_invocation.1 4 cfgMain
    (.d [("reference", .s "GRCh37"), ("bin", .s "snpEff.jar"),
         ("max_mem", .i 4)])
    (.s "GRCh37") (.s "snpEff.jar") (.i 4) "S1" "in.vcf" rfl rfl rfl rfl

/-- C2 counterexample: at a concrete configuration, recalibrator performs
three process executions, not exactly two. -/
theorem C2_counterexample :
    (runsOf (recalibrator 4 cfgMain "S1" "in.bam").2).length = 3 := rfl

/-- C2 (amended): recalibrator performs exactly three external
invocations, BaseRecalibrator, then PrintReads, then a cp of the index
file, and the {sample}.recal path given to BaseRecalibrator via -o is
passed to PrintReads as its -BQSR argument. -/
theorem C2_recalibrator_sequence (cpu : Nat) (config gd mem r dbsnp : PyVal)
    (sample input_bam : String)
    (h1 : config.sub "gatk" = .ok gd)
    (h2 : gd.sub "max_mem" = .ok mem)
    (h3 : config.sub "reference" = .ok r)
    (h4 : config.sub "dbsnp" = .ok dbsnp) :
    ∃ L1 L2,
      baserecal_command cpu config sample input_bam = .ok L1 ∧
      printreads_command cpu config sample input_bam = .ok L2 ∧
      runsOf (recalibrator cpu config sample input_bam).2 =
        [Effect.run (String.intercalate " " L1)
           (sample ++ ".recalibrate.log"),
         Effect.run (String.intercalate " " L2)
           (sample ++ ".printrecalibrated.log"),
         Effect.run (String.intercalate " " (cp_command sample))
           (sample ++ ".copy.log")] ∧
      L1.get? 10 = some "-o" ∧ L1.get? 11 = some (sample ++ ".recal") ∧
      L2.get? 12 = some "-BQSR" ∧ L2.get? 13 = some (sample ++ ".recal") := by
  have hc1 := baserecal_command_spec cpu config gd mem r dbsnp sample
    input_bam h1 h2 h3 h4
  have hc2 := printreads_command_spec cpu config gd mem r sample input_bam
    h1 h2 h3
  refine ⟨_, _, hc1, hc2, ?_, rfl, rfl, rfl, rfl⟩
  rw [recalibrator_spec cpu config sample input_bam _ _ hc1 hc2]
  simp [runsOf, List.filter, Effect.isRun]

/-- Witness for C2 at a concrete configuration. -/
theorem C2_witness :
    ∃ L1 L2,
      baserecal_command 4 cfgMain "S1" "in.bam" = .ok L1 ∧
      printreads_command 4 cfgMain "S1" "in.bam" = .ok L2 ∧
      runsOf (recalibrator 4 cfgMain "S1" "in.bam").2 =
        [Effect.run (String.intercalate " " L1) ("S1" ++ ".recalibrate.log"),
         Effect.run (String.intercalate " " L2)
           ("S1" ++ ".printrecalibrated.log"),
         Effect.run (String.intercalate " " (cp_command "S1"))
           ("S1" ++ ".copy.log")] ∧
      L1.get? 10 = some "-o" ∧ L1.get? 11 = some ("S1" ++ ".recal") ∧
      L2.get? 12 = some "-BQSR" ∧ L2.get? 13 = some ("S1" ++ ".recal") :=
  C2_recalibrator_sequence 4 cfgMain
    (.d [("bin", .s "gatk.jar"), ("max_mem", .i 8)]) (.i 8) (.s "ref.fa")
    (.s "dbsnp.vcf") "S1" "in.bam" rfl rfl rfl rfl

/-- C4 counterexample: two configurations that differ in their reference
value produce the same annotate_vcf output path S1.annotated.vcf. -/
theorem C4_counterexample :
    cfgStr cfgMain "reference" ≠ cfgStr cfgAltRef "reference" ∧
    (annotate_vcf 4 cfgMain "S1" "in.vcf" "in.bam" 4).1 =
      .ok "S1.annotated.vcf" ∧
    (annotate_vcf 4 cfgAltRef "S1" "in.vcf" "in.bam" 4).1 =
      .ok "S1.annotated.vcf" :=
  ⟨by decide, rfl, rfl⟩

/-- C4 (amended): the snpeff, gemini and vcfanno output names embed the
snpeff reference, so distinct references give distinct output paths for
a fixed sample; the GATK-stage output names (annotate_vcf,
filter_variants) depend only on the sample, so runs under configurations
with distinct reference values return identical output paths. -/
theorem C4_naming_uniqueness :
    (∀ s r1 r2 : String, r1 ≠ r2 →
      snpeff_output s r1 ≠ snpeff_output s r2) ∧
    (∀ s r1 r2 : String, r1 ≠ r2 → gemini_db s r1 ≠ gemini_db s r2) ∧
    (∀ s r1 r2 : String, r1 ≠ r2 →
      vcfanno_output s r1 ≠ vcfanno_output s r2) ∧
    (∀ cpu config config2 (s iv ib : String) (nt : Int) (out out2 : String),
      (annotate_vcf cpu config s iv ib nt).1 = .ok out →
      (annotate_vcf cpu config2 s iv ib nt).1 = .ok out2 → out = out2) ∧
    (∀ cpu config config2 (s iv : String) (out out2 : String),
      (filter_variants cpu config s iv).1 = .ok out →
      (filter_variants cpu config2 s iv).1 = .ok out2 → out = out2) := by
  have hann : ∀ cpu config (s iv ib : String) (nt : Int) (out : String),
      (annotate_vcf cpu config s iv ib nt).1 = .ok out →
      out = annotated_output s := by
    intro cpu config s iv ib nt out h
    unfold annotate_vcf at h
    obtain ⟨effs, hp⟩ := runPlan_ok _ _ _ h
    simp only [annotate_vcf_plan, bind_eq_ok, pure_eq_ok] at hp
    obtain ⟨cmd, hc, hpp⟩ := hp
    simp only [Except.ok.injEq, Prod.mk.injEq] at hpp
    exact hpp.1.symm
  have hfil : ∀ cpu config (s iv : String) (out : String),
      (filter_variants cpu config s iv).1 = .ok out →
      out = filtered_output s := by
    intro cpu config s iv out h
    unfold filter_variants at h
    obtain ⟨effs, hp⟩ := runPlan_ok _ _ _ h
    simp only [filter_variants_plan, bind_eq_ok, pure_eq_ok] at hp
    obtain ⟨cmd, hc, hpp⟩ := hp
    simp only [Except.ok.injEq, Prod.mk.injEq] at hpp
    exact hpp.1.symm
  refine ⟨?_, ?_, ?_, ?_, ?_⟩
  · intro s r1 r2 hne he
    exact hne (append_inner_inj (s ++ ".snpEff.") ".vcf" r1 r2 he)
  · intro s r1 r2 hne he
    exact hne (append_inner_inj (s ++ ".snpEff.") ".db" r1 r2 he)
  · intro s r1 r2 hne he
    exact hne (append_inner_inj (s ++ ".vcfanno.snpEff.") ".vcf" r1 r2 he)
  · intro cpu config config2 s iv ib nt out out2 h h2
    exact (hann cpu config s iv ib nt out h).trans
      (hann cpu config2 s iv ib nt out2 h2).symm
  · intro cpu config config2 s iv out out2 h h2
    exact (hfil cpu config s iv out h).trans
      (hfil cpu config2 s iv out2 h2).symm

/-- Witness for C4 at concrete values. -/
theorem C4_witness :
    snpeff_output "S1" "GRCh37" ≠ snpeff_output "S1" "GRCh38" :=
  C4_naming_uniqueness.1 "S1" "GRCh37" "GRCh38" (by decide)

/-- C5 counterexample: with an identical configuration, sample and input
BAM, two platypus_single calls on machines with different CPU counts
construct different argument vectors (the --nCPU argument). -/
theorem C5_counterexample :
    cmdOf (platypus_command 1 cfgMain "S1" "in.bam") ≠
      cmdOf (platypus_command 2 cfgMain "S1" "in.bam") := by decide

/-- C5 (amended): for every stage except realign_indels, recalibrator
and platypus_single, the constructed argument vector (and the whole call
result) is a pure function of the configuration, sample and prior
artifact paths, independent of the machine CPU count; realign_indels,
recalibrator and platypus_single additionally read the CPU count. -/
theorem C5_purity :
    (∀ c1 c2 config (s iv : String),
      snpeff_command c1 config s iv = snpeff_command c2 config s iv ∧
      snpeff c1 config s iv = snpeff c2 config s iv) ∧
    (∀ c1 c2 config (s iv : String),
      gemini_command c1 config s iv = gemini_command c2 config s iv ∧
      gemini c1 config s iv = gemini c2 config s iv) ∧
    (∀ c1 c2 config (s iv : String),
      vcfanno_command c1 config s iv = vcfanno_command c2 config s iv ∧
      vcfanno c1 config s iv = vcfanno c2 config s iv) ∧
    (∀ c1 c2 config (s ib : String),
      diagnosetargets_command c1 config s ib =
        diagnosetargets_command c2 config s ib ∧
      diagnosetargets c1 config s ib = diagnosetargets c2 config s ib) ∧
    (∀ c1 c2 config (s iv ib : String) (nt : Int),
      annotate_vcf_command c1 config s iv ib nt =
        annotate_vcf_command c2 config s iv ib nt ∧
      annotate_vcf c1 config s iv ib nt =
        annotate_vcf c2 config s iv ib nt) ∧
    (∀ c1 c2 config (s iv : String),
      filter_variants_command c1 config s iv =
        filter_variants_command c2 config s iv ∧
      filter_variants c1 config s iv = filter_variants c2 config s iv) ∧
    (∀ c1 c2 config (s ib : String),
      addrg_command c1 config s ib = addrg_command c2 config s ib ∧
      buildindex_command c1 config s = buildindex_command c2 config s ∧
      add_or_replace_readgroups c1 config s ib =
        add_or_replace_readgroups c2 config s ib) ∧
    (∀ c1 c2 config (s ib : String),
      realign_target_creator_command c1 config s ib =
        realign_target_creator_command c2 config s ib ∧
      realign_target_creator c1 config s ib =
        realign_target_creator c2 config s ib) ∧
    (∀ c1 c2 pc (sc : List PyVal) tc rc,
      run_mark_duplicates c1 pc sc tc rc =
        run_mark_duplicates c2 pc sc tc rc) := by
  exact ⟨fun _ _ _ _ _ => ⟨rfl, rfl⟩, fun _ _ _ _ _ => ⟨rfl, rfl⟩,
         fun _ _ _ _ _ => ⟨rfl, rfl⟩, fun _ _ _ _ _ => ⟨rfl, rfl⟩,
         fun _ _ _ _ _ _ _ => ⟨rfl, rfl⟩, fun _ _ _ _ _ => ⟨rfl, rfl⟩,
         fun _ _ _ _ _ => ⟨rfl, rfl, rfl⟩, fun _ _ _ _ _ => ⟨rfl, rfl⟩,
         fun _ _ _ _ _ _ => rfl⟩

/-- C6 counterexample: the GEMINI load command contains no element with
a stdout-redirection character at all; the database path is its final
positional argument. -/
theorem C6_counterexample :
    gemini_command 4 cfgMain "S1" "in.vcf" =
      .ok ["gemini", "load", "--cores", "8", "--save-info-string", "-v",
           "in.vcf", "-t", "snpEff", "S1.snpEff.GRCh37.db"] ∧
    ((cmdOf (gemini_command 4 cfgMain "S1" "in.vcf")).all
       fun a => !(a.data.any fun c => c == Char.ofNat 62)) = true :=
  ⟨rfl, by decide⟩

/-- C6 (amended): snpeff fuses ">" with its output path into the final
argument-vector element, vcfanno passes ">" and the output path as its
two final elements, gemini passes the database path as a final
positional argument with no redirection, and the GATK/Picard commands
name their outputs with -o or OUTPUT=. -/
theorem C6_output_direction :
    (∀ cpu config sd ref binv mem (s iv : String),
      config.sub "snpeff" = .ok sd → sd.sub "reference" = .ok ref →
      sd.sub "bin" = .ok binv → sd.sub "max_mem" = .ok mem →
      ∃ L, snpeff_command cpu config s iv = .ok L ∧
        L.getLast? = some (">" ++ snpeff_output s ref.fmt)) ∧
    (∀ cpu config sd ref vd binv cores lua conf (s iv : String),
      config.sub "snpeff" = .ok sd → sd.sub "reference" = .ok ref →
      config.sub "vcfanno" = .ok vd → vd.sub "bin" = .ok binv →
      vd.sub "num_cores" = .ok cores → vd.sub "lua" = .ok lua →
      vd.sub "conf" = .ok conf →
      ∃ L, vcfanno_command cpu config s iv = .ok L ∧
        L.get? 7 = some ">" ∧
        L.get? 8 = some (vcfanno_output s ref.fmt) ∧ L.length = 9) ∧
    (∀ cpu config sd ref gd binv cores (s iv : String),
      config.sub "snpeff" = .ok sd → sd.sub "reference" = .ok ref →
      config.sub "gemini" = .ok gd → gd.sub "bin" = .ok binv →
      gd.sub "num_cores" = .ok cores →
      ∃ L, gemini_command cpu config s iv = .ok L ∧
        L = [binv.fmt, "load", "--cores", cores.fmt, "--save-info-string",
             "-v", iv, "-t", "snpEff", gemini_db s ref.fmt] ∧
        L.getLast? = some (gemini_db s ref.fmt)) ∧
    (∀ cpu config gd binv r regions clt bmt ct qlt (s ib : String),
      config.sub "gatk" = .ok gd → gd.sub "bin" = .ok binv →
      config.sub "reference" = .ok r → config.sub "regions" = .ok regions →
      config.sub "coverage_loci_threshold" = .ok clt →
      config.sub "bad_mate_threshold" = .ok bmt →
      config.sub "coverage_threshold" = .ok ct →
      config.sub "quality_loci_threshold" = .ok qlt →
      ∃ L, diagnosetargets_command cpu config s ib = .ok L ∧
        L.get? 20 = some "-o" ∧
        L.get? 21 = some (diagnosetargets_output s)) ∧
    (∀ cpu config gd mem binv r dbsnp (s iv ib : String) (nt : Int),
      config.sub "gatk" = .ok gd → gd.sub "max_mem" = .ok mem →
      gd.sub "bin" = .ok binv → config.sub "reference" = .ok r →
      config.sub "dbsnp" = .ok dbsnp →
      ∃ L, annotate_vcf_command cpu config s iv ib nt = .ok L ∧
        L.get? 20 = some "-o" ∧ L.get? 21 = some (annotated_output s)) ∧
    (∀ cpu config gd mem binv r ct (s iv : String),
      config.sub "gatk" = .ok gd → gd.sub "max_mem" = .ok mem →
      gd.sub "bin" = .ok binv → config.sub "reference" = .ok r →
      config.sub "coverage_threshold" = .ok ct →
      ∃ L, filter_variants_command cpu config s iv = .ok L ∧
        L.get? 26 = some "-o" ∧ L.get? 27 = some (filtered_output s)) ∧
    (∀ cpu config gd mem pic (s ib : String),
      config.sub "gatk" = .ok gd → gd.sub "max_mem" = .ok mem →
      config.sub "picard" = .ok pic →
      ∃ L, addrg_command cpu config s ib = .ok L ∧
        L.get? 6 = some ("OUTPUT=" ++ rg_output s)) ∧
    (∀ cpu config gd mem r (s ib : String),
      config.sub "gatk" = .ok gd → gd.sub "max_mem" = .ok mem →
      config.sub "reference" = .ok r →
      ∃ L, printreads_command cpu config s ib = .ok L ∧
        L.get? 10 = some "-o" ∧
        L.get? 11 = some (recalibrated_output s)) := by
  refine ⟨?_, ?_, ?_, ?_, ?_, ?_, ?_, ?_⟩
  · intro cpu config sd ref binv mem s iv h1 h2 h3 h4
    exact ⟨_, snpeff_command_spec cpu config sd ref binv mem s iv
               h1 h2 h3 h4, rfl⟩
  · intro cpu config sd ref vd binv cores lua conf s iv h1 h2 h3 h4 h5 h6 h7
    exact ⟨_, vcfanno_command_spec cpu config sd ref vd binv cores lua conf
               s iv h1 h2 h3 h4 h5 h6 h7, rfl, rfl, rfl⟩
  · intro cpu config sd ref gd binv cores s iv h1 h2 h3 h4 h5
    exact ⟨_, gemini_command_spec cpu config sd ref gd binv cores s iv
               h1 h2 h3 h4 h5, rfl, rfl⟩
  · intro cpu config gd binv r regions clt bmt ct qlt s ib
      h1 h2 h3 h4 h5 h6 h7 h8
    exact ⟨_, diagnosetargets_command_spec cpu config gd binv r regions clt
               bmt ct qlt s ib h1 h2 h3 h4 h5 h6 h7 h8, rfl, rfl⟩
  · intro cpu config gd mem binv r dbsnp s iv ib nt h1 h2 h3 h4 h5
    exact ⟨_, annotate_vcf_command_spec cpu config gd mem binv r dbsnp s iv
               ib nt h1 h2 h3 h4 h5, rfl, rfl⟩
  · intro cpu config gd mem binv r ct s iv h1 h2 h3 h4 h5
    exact ⟨_, filter_variants_command_spec cpu config gd mem binv r ct s iv
               h1 h2 h3 h4 h5, rfl, rfl⟩
  · intro cpu config gd mem pic s ib h1 h2 h3
    exact ⟨_, addrg_command_spec cpu config gd mem pic s ib h1 h2 h3, rfl⟩
  · intro cpu config gd mem r s ib h1 h2 h3
    exact ⟨_, printreads_command_spec cpu config gd mem r s ib h1 h2 h3,
           rfl, rfl⟩

/-- Witness for C6 at a concrete configuration: the snpeff clause. -/
theorem C6_witness :
    ∃ L, snpeff_command 4 cfgMain "S1" "in.vcf" = .ok L ∧
      L.getLast? = some (">" ++ snpeff_output "S1" (PyVal.s "GRCh37").fmt) :=
  C6_output_direction.1 4 cfgMain
    (.d [("reference", .s "GRCh37"), ("bin", .s "snpEff.jar"),
         ("max_mem", .i 4)])
    (.s "GRCh37") (.s "snpEff.jar") (.i 4) "S1" "in.vcf" rfl rfl rfl rfl

/-- C7: for every stage, a successful call requires every configuration
lookup of the stage to succeed (so an absent required key makes the call
raise the corresponding KeyError/TypeError instead of returning), and a
call that raises performs no process execution: the exception fires
during command construction, before pipeline.run_and_log_command. -/
theorem C7_missing_key_aborts :
    (∀ cpu config (sample input_vcf out : String),
      (snpeff cpu config sample input_vcf).1 = .ok out →
      ExOk (config.sub "snpeff" >>= fun d => d.sub "reference") ∧
      ExOk (config.sub "snpeff" >>= fun d => d.sub "bin") ∧
      ExOk (config.sub "snpeff" >>= fun d => d.sub "max_mem")) ∧
    (∀ cpu config (sample input_vcf : String) (e : PyErr),
      (snpeff cpu config sample input_vcf).1 = .error e →
      runsOf (snpeff cpu config sample input_vcf).2 = []) ∧
    (∀ cpu config (sample input_vcf out : String),
      (gemini cpu config sample input_vcf).1 = .ok out →
      ExOk (config.sub "snpeff" >>= fun d => d.sub "reference") ∧
      ExOk (config.sub "gemini" >>= fun d => d.sub "bin") ∧
      ExOk (config.sub "gemini" >>= fun d => d.sub "num_cores")) ∧
    (∀ cpu config (sample input_vcf : String) (e : PyErr),
      (gemini cpu config sample input_vcf).1 = .error e →
      runsOf (gemini cpu config sample input_vcf).2 = []) ∧
    (∀ cpu config (sample input_vcf out : String),
      (vcfanno cpu config sample input_vcf).1 = .ok out →
      ExOk (config.sub "snpeff" >>= fun d => d.sub "reference") ∧
      ExOk (config.sub "vcfanno" >>= fun d => d.sub "bin") ∧
      ExOk (config.sub "vcfanno" >>= fun d => d.sub "num_cores") ∧
      ExOk (config.sub "vcfanno" >>= fun d => d.sub "lua") ∧
      ExOk (config.sub "vcfanno" >>= fun d => d.sub "conf")) ∧
    (∀ cpu config (sample input_vcf : String) (e : PyErr),
      (vcfanno cpu config sample input_vcf).1 = .error e →
      runsOf (vcfanno cpu config sample input_vcf).2 = []) ∧
    (∀ cpu config (sample input_bam out : String),
      (diagnosetargets cpu config sample input_bam).1 = .ok out →
      ExOk (config.sub "gatk" >>= fun d => d.sub "bin") ∧
      ExOk (config.sub "reference") ∧
      ExOk (config.sub "regions") ∧
      ExOk (config.sub "coverage_loci_threshold") ∧
      ExOk (config.sub "bad_mate_threshold") ∧
      ExOk (config.sub "coverage_threshold") ∧
      ExOk (config.sub "quality_loci_threshold")) ∧
    (∀ cpu config (sample input_bam : String) (e : PyErr),
      (diagnosetargets cpu config sample input_bam).1 = .error e →
      runsOf (diagnosetargets cpu config sample input_bam).2 = []) ∧
    (∀ cpu config (sample input_vcf input_bam out : String)
       (num_threads : Int),
      (annotate_vcf cpu config sample input_vcf input_bam
          num_threads).1 = .ok out →
      ExOk (config.sub "gatk" >>= fun d => d.sub "max_mem") ∧
      ExOk (config.sub "gatk" >>= fun d => d.sub "bin") ∧
      ExOk (config.sub "reference") ∧ ExOk (config.sub "dbsnp")) ∧
    (∀ cpu config (sample input_vcf input_bam : String)
       (num_threads : Int) (e : PyErr),
      (annotate_vcf cpu config sample input_vcf input_bam
          num_threads).1 = .error e →
      runsOf (annotate_vcf cpu config sample input_vcf input_bam
                num_threads).2 = []) ∧
    (∀ cpu config (sample input_vcf out : String),
      (filter_variants cpu config sample input_vcf).1 = .ok out →
      ExOk (config.sub "gatk" >>= fun d => d.sub "max_mem") ∧
      ExOk (config.sub "gatk" >>= fun d => d.sub "bin") ∧
      ExOk (config.sub "reference") ∧
      ExOk (config.sub "coverage_threshold")) ∧
    (∀ cpu config (sample input_vcf : String) (e : PyErr),
      (filter_variants cpu config sample input_vcf).1 = .error e →
      runsOf (filter_variants cpu config sample input_vcf).2 = []) ∧
    (∀ cpu config (sample input_bam out : String),
      (add_or_replace_readgroups cpu config sample input_bam).1 =
        .ok out →
      ExOk (config.sub "gatk" >>= fun d => d.sub "max_mem") ∧
      ExOk (config.sub "picard")) ∧
    (∀ cpu config (sample input_bam : String) (e : PyErr),
      (add_or_replace_readgroups cpu config sample input_bam).1 =
        .error e →
      runsOf (add_or_replace_readgroups cpu config sample input_bam).2 =
        []) ∧
    (∀ cpu config (sample input_bam out : String),
      (realign_target_creator cpu config sample input_bam).1 = .ok out →
      ExOk (config.sub "gatk" >>= fun d => d.sub "max_mem") ∧
      ExOk (config.sub "reference") ∧
      ExOk (config.sub "indel1") ∧ ExOk (config.sub "indel2")) ∧
    (∀ cpu config (sample input_bam : String) (e : PyErr),
      (realign_target_creator cpu config sample input_bam).1 = .error e →
      runsOf (realign_target_creator cpu config sample input_bam).2 =
        []) ∧
    (∀ cpu config (sample input_bam targets out : String),
      (realign_indels cpu config sample input_bam targets).1 = .ok out →
      ExOk (config.sub "gatk" >>= fun d => d.sub "max_mem") ∧
      ExOk (config.sub "reference") ∧
      ExOk (config.sub "indel1") ∧ ExOk (config.sub "indel2")) ∧
    (∀ cpu config (sample input_bam targets : String) (e : PyErr),
      (realign_indels cpu config sample input_bam targets).1 = .error e →
      runsOf (realign_indels cpu config sample input_bam targets).2 =
        []) ∧
    (∀ cpu config (sample input_bam out : String),
      (recalibrator cpu config sample input_bam).1 = .ok out →
      ExOk (config.sub "gatk" >>= fun d => d.sub "max_mem") ∧
      ExOk (config.sub "reference") ∧ ExOk (config.sub "dbsnp")) ∧
    (∀ cpu config (sample input_bam : String) (e : PyErr),
      (recalibrator cpu config sample input_bam).1 = .error e →
      runsOf (recalibrator cpu config sample input_bam).2 = []) ∧
    (∀ cpu config (sample input_bam out : String),
      (platypus_single cpu config sample input_bam).1 = .ok out →
      ExOk (config.sub "platypus") ∧
      ExOk (config.sub "reference") ∧
      ExOk (config.sub "platypus_regions")) ∧
    (∀ cpu config (sample input_bam : String),
      runsOf (platypus_single cpu config sample input_bam).2 = []) ∧
    (∀ cpu project_config (sample_config : List PyVal)
       tool_config resource_config,
      runsOf (run_mark_duplicates cpu project_config sample_config
                tool_config resource_config).2 = []) :=
  ⟨snpeff_requires, snpeff_err, gemini_requires, gemini_err,
   vcfanno_requires, vcfanno_err, diagnosetargets_requires,
   diagnosetargets_err, annotate_vcf_requires, annotate_vcf_err,
   filter_variants_requires, filter_variants_err,
   add_or_replace_readgroups_requires, add_or_replace_readgroups_err,
   realign_target_creator_requires, realign_target_creator_err,
   realign_indels_requires, realign_indels_err, recalibrator_requires,
   recalibrator_err, platypus_single_requires, platypus_single_no_runs,
   run_mark_duplicates_no_runs⟩

/-- Witness for C7: on an empty configuration, snpeff raises
KeyError("snpeff") and performs no process execution. -/
theorem C7_witness :
    (snpeff 4 (PyVal.d []) "S1" "in.vcf").1 =
      .error (.keyError "snpeff") ∧
    runsOf (snpeff 4 (PyVal.d []) "S1" "in.vcf").2 = [] :=
  ⟨rfl, C7_missing_key_aborts.2.1 4 (PyVal.d []) "S1" "in.vcf"
          (.keyError "snpeff") rfl⟩

/-- C8 counterexample: with config gatk.max_mem = 8, diagnosetargets
still hardcodes its heap argument to -Xmx2g; no -Xmx8g argument
appears. -/
theorem C8_counterexample :
    cfgStr2 cfgMain "gatk" "max_mem" = "8" ∧
    (cmdOf (diagnosetargets_command 4 cfgMain "S1" "in.bam")).get? 1 =
      some "-Xmx2g" ∧
    "-Xmx8g" ∉ cmdOf (diagnosetargets_command 4 cfgMain "S1" "in.bam") :=
  ⟨rfl, rfl, by decide⟩

/-- C8 (amended): snpeff reads snpeff.bin and snpeff.max_mem; gemini and
vcfanno read their tools' nested bin and pass no heap argument;
diagnosetargets, annotate_vcf and filter_variants read gatk.bin, but
diagnosetargets hardcodes -Xmx2g; add_or_replace_readgroups reads the
flat config picard entry and gatk.max_mem; realign_target_creator,
realign_indels and recalibrator pass the flat config gatk entry itself
as the -jar argument with gatk.max_mem as heap; platypus_single reads
the flat config platypus entry and passes no heap argument; and
run_mark_duplicates reads picard.bin with gatk.max_mem as heap. -/
theorem C8_binary_and_heap_sources :
    (∀ cpu config sd ref binv mem (s iv : String),
      config.sub "snpeff" = .ok sd → sd.sub "reference" = .ok ref →
      sd.sub "bin" = .ok binv → sd.sub "max_mem" = .ok mem →
      ∃ L, snpeff_command cpu config s iv = .ok L ∧
        L.get? 0 = some binv.fmt ∧
        L.get? 1 = some ("-Xmx" ++ mem.fmt ++ "g")) ∧
    (∀ cpu config sd ref gd binv cores (s iv : String),
      config.sub "snpeff" = .ok sd → sd.sub "reference" = .ok ref →
      config.sub "gemini" = .ok gd → gd.sub "bin" = .ok binv →
      gd.sub "num_cores" = .ok cores →
      ∃ L, gemini_command cpu config s iv = .ok L ∧
        L.get? 0 = some binv.fmt ∧ L.length = 10) ∧
    (∀ cpu config sd ref vd binv cores lua conf (s iv : String),
      config.sub "snpeff" = .ok sd → sd.sub "reference" = .ok ref →
      config.sub "vcfanno" = .ok vd → vd.sub "bin" = .ok binv →
      vd.sub "num_cores" = .ok cores → vd.sub "lua" = .ok lua →
      vd.sub "conf" = .ok conf →
      ∃ L, vcfanno_command cpu config s iv = .ok L ∧
        L.get? 0 = some binv.fmt ∧ L.length = 9) ∧
    (∀ cpu config gd binv r regions clt bmt ct qlt (s ib : String),
      config.sub "gatk" = .ok gd → gd.sub "bin" = .ok binv →
      config.sub "reference" = .ok r → config.sub "regions" = .ok regions →
      config.sub "coverage_loci_threshold" = .ok clt →
      config.sub "bad_mate_threshold" = .ok bmt →
      config.sub "coverage_threshold" = .ok ct →
      config.sub "quality_loci_threshold" = .ok qlt →
      ∃ L, diagnosetargets_command cpu config s ib = .ok L ∧
        L.get? 1 = some "-Xmx2g" ∧ L.get? 3 = some binv.fmt) ∧
    (∀ cpu config gd mem binv r dbsnp (s iv ib : String) (nt : Int),
      config.sub "gatk" = .ok gd → gd.sub "max_mem" = .ok mem →
      gd.sub "bin" = .ok binv → config.sub "reference" = .ok r →
      config.sub "dbsnp" = .ok dbsnp →
      ∃ L, annotate_vcf_command cpu config s iv ib nt = .ok L ∧
        L.get? 1 = some ("-Xmx" ++ mem.fmt ++ "g") ∧
        L.get? 3 = some binv.fmt) ∧
    (∀ cpu config gd mem binv r ct (s iv : String),
      config.sub "gatk" = .ok gd → gd.sub "max_mem" = .ok mem →
      gd.sub "bin" = .ok binv → config.sub "reference" = .ok r →
      config.sub "coverage_threshold" = .ok ct →
      ∃ L, filter_variants_command cpu config s iv = .ok L ∧
        L.get? 1 = some ("-Xmx" ++ mem.fmt ++ "g") ∧
        L.get? 3 = some binv.fmt) ∧
    (∀ cpu config gd mem pic (s ib : String),
      config.sub "gatk" = .ok gd → gd.sub "max_mem" = .ok mem →
      config.sub "picard" = .ok pic →
      ∃ L, addrg_command cpu config s ib = .ok L ∧
        L.get? 1 = some ("-Xmx" ++ mem.fmt ++ "g") ∧
        L.get? 3 = some pic.fmt) ∧
    (∀ cpu config gd mem r i1 i2 (s ib : String),
      config.sub "gatk" = .ok gd → gd.sub "max_mem" = .ok mem →
      config.sub "reference" = .ok r → config.sub "indel1" = .ok i1 →
      config.sub "indel2" = .ok i2 →
      ∃ L, realign_target_creator_command cpu config s ib = .ok L ∧
        L.get? 1 = some ("-Xmx" ++ mem.fmt ++ "g") ∧
        L.get? 3 = some gd.fmt) ∧
    (∀ cpu config gd mem r i1 i2 (s ib tgt : String),
      config.sub "gatk" = .ok gd → gd.sub "max_mem" = .ok mem →
      config.sub "reference" = .ok r → config.sub "indel1" = .ok i1 →
      config.sub "indel2" = .ok i2 →
      ∃ L, realign_indels_command cpu config s ib tgt = .ok L ∧
        L.get? 1 = some ("-Xmx" ++ mem.fmt ++ "g") ∧
        L.get? 3 = some gd.fmt) ∧
    (∀ cpu config gd mem r dbsnp (s ib : String),
      config.sub "gatk" = .ok gd → gd.sub "max_mem" = .ok mem →
      config.sub "reference" = .ok r → config.sub "dbsnp" = .ok dbsnp →
      ∃ L, baserecal_command cpu config s ib = .ok L ∧
        L.get? 1 = some ("-Xmx" ++ mem.fmt ++ "g") ∧
        L.get? 3 = some gd.fmt) ∧
    (∀ cpu config p r regions (s ib : String),
      config.sub "platypus" = .ok p → config.sub "reference" = .ok r →
      config.sub "platypus_regions" = .ok regions →
      ∃ L, platypus_command cpu config s ib = .ok L ∧
        L.get? 0 = some p.fmt ∧ L.length = 11) ∧
    (∀ tool_config (m : List (String × PyVal)) nm gd mem pd pbin wb,
      (PyVal.d m).sub "name" = .ok nm →
      (PyVal.d m).sub "bam" = .error (.keyError "bam") →
      tool_config.sub "gatk" = .ok gd → gd.sub "max_mem" = .ok mem →
      tool_config.sub "picard" = .ok pd → pd.sub "bin" = .ok pbin →
      (PyVal.d m).sub "working_bam" = .ok wb →
      ∃ sm2, mark_dup_step tool_config (.d m) =
        .ok (sm2,
             ("java -Xmx" ++ mem.fmt ++ "g -jar " ++ pbin.fmt ++
                " MarkDuplicates CREATE_INDEX=true INPUT=" ++ wb.fmt ++
                " OUTPUT=" ++ (nm.fmt ++ ".dedup.sorted.bam") ++
                " METRICS_FILE=" ++ (nm.fmt ++ ".dedup.metrics") ++
                " VALIDATION_STRINGENCY=LENIENT",
              nm.fmt ++ ".markduplicates.log"))) := by
  refine ⟨?_, ?_, ?_, ?_, ?_, ?_, ?_, ?_, ?_, ?_, ?_, ?_⟩
  · intro cpu config sd ref binv mem s iv h1 h2 h3 h4
    exact ⟨_, snpeff_command_spec cpu config sd ref binv mem s iv
               h1 h2 h3 h4, rfl, rfl⟩
  · intro cpu config sd ref gd binv cores s iv h1 h2 h3 h4 h5
    exact ⟨_, gemini_command_spec cpu config sd ref gd binv cores s iv
               h1 h2 h3 h4 h5, rfl, rfl⟩
  · intro cpu config sd ref vd binv cores lua conf s iv h1 h2 h3 h4 h5 h6 h7
    exact ⟨_, vcfanno_command_spec cpu config sd ref vd binv cores lua conf
               s iv h1 h2 h3 h4 h5 h6 h7, rfl, rfl⟩
  · intro cpu config gd binv r regions clt bmt ct qlt s ib
      h1 h2 h3 h4 h5 h6 h7 h8
    exact ⟨_, diagnosetargets_command_spec cpu config gd binv r regions clt
               bmt ct qlt s ib h1 h2 h3 h4 h5 h6 h7 h8, rfl, rfl⟩
  · intro cpu config gd mem binv r dbsnp s iv ib nt h1 h2 h3 h4 h5
    exact ⟨_, annotate_vcf_command_spec cpu config gd mem binv r dbsnp s iv
               ib nt h1 h2 h3 h4 h5, rfl, rfl⟩
  · intro cpu config gd mem binv r ct s iv h1 h2 h3 h4 h5
    exact ⟨_, filter_variants_command_spec cpu config gd mem binv r ct s iv
               h1 h2 h3 h4 h5, rfl, rfl⟩
  · intro cpu config gd mem pic s ib h1 h2 h3
    exact ⟨_, addrg_command_spec cpu config gd mem pic s ib h1 h2 h3,
           rfl, rfl⟩
  · intro cpu config gd mem r i1 i2 s ib h1 h2 h3 h4 h5
    exact ⟨_, realign_target_creator_command_spec cpu config gd mem r i1 i2
               s ib h1 h2 h3 h4 h5, rfl, rfl⟩
  · intro cpu config gd mem r i1 i2 s ib tgt h1 h2 h3 h4 h5
    exact ⟨_, realign_indels_command_spec cpu config gd mem r i1 i2 s ib
               tgt h1 h2 h3 h4 h5, rfl, rfl⟩
  · intro cpu config gd mem r dbsnp s ib h1 h2 h3 h4
    exact ⟨_, baserecal_command_spec cpu config gd mem r dbsnp s ib
               h1 h2 h3 h4, rfl, rfl⟩
  · intro cpu config p r regions s ib h1 h2 h3
    exact ⟨_, platypus_command_spec cpu config p r regions s ib h1 h2 h3,
           rfl, rfl⟩
  · intro tool_config m nm gd mem pd pbin wb h1 h2 h3 h4 h5 h6 h7
    exact ⟨_, mark_dup_step_spec tool_config m nm gd mem pd pbin wb
               h1 h2 h3 h4 h5 h6 h7⟩

/-- Witness for C8 at a concrete configuration: the realign_indels
clause, whose -jar argument is the repr of the whole gatk dict. -/
theorem C8_witness :
    ∃ L, realign_indels_command 4 cfgMain "S1" "in.bam" "S1.tgt" = .ok L ∧
      L.get? 1 = some ("-Xmx" ++ (PyVal.i 8).fmt ++ "g") ∧
      L.get? 3 = some (PyVal.d [("bin", .s "gatk.jar"),
                                ("max_mem", .i 8)]).fmt :=
  C8_binary_and_heap_sources.2.2.2.2.2.2.2.2.1 4 cfgMain
    (.d [("bin", .s "gatk.jar"), ("max_mem", .i 8)]) (.i 8) (.s "ref.fa")
    (.s "indel1.vcf") (.s "indel2.vcf") "S1" "in.bam" "S1.tgt"
    rfl rfl rfl rfl rfl

/-- C9 counterexample: run_mark_duplicates mutates the sample
configuration records it receives: after the call the first sample's
working_bam has changed from S1.raw.bam to S1.dedup.sorted.bam and a
dedup_bam key has been added. -/
theorem C9_counterexample :
    cfgStr sampleA "working_bam" = "S1.raw.bam" ∧
    cfgStr sampleA "dedup_bam" = "" ∧
    firstSampleStr (run_mark_duplicates 4 (.d []) [sampleA] cfgTool
        (.d [])) "working_bam" = "S1.dedup.sorted.bam" ∧
    firstSampleStr (run_mark_duplicates 4 (.d []) [sampleA] cfgTool
        (.d [])) "dedup_bam" = "S1.dedup.sorted.bam" :=
  ⟨rfl, rfl, rfl, rfl⟩

/-- C9 (amended): no stage other than run_mark_duplicates mutates any
mapping it receives (the embedding threads no state for them), while a
run_mark_duplicates loop iteration on a sample record without a bam key
rewrites exactly the dedup_bam and working_bam entries of that record,
leaving every other key unchanged. -/
theorem C9_sample_mutation (tc : PyVal) (m : List (String × PyVal))
    (nm gd mem pd pbin wb : PyVal)
    (h1 : (PyVal.d m).sub "name" = .ok nm)
    (h2 : (PyVal.d m).sub "bam" = .error (.keyError "bam"))
    (h3 : tc.sub "gatk" = .ok gd)
    (h4 : gd.sub "max_mem" = .ok mem)
    (h5 : tc.sub "picard" = .ok pd)
    (h6 : pd.sub "bin" = .ok pbin)
    (h7 : (PyVal.d m).sub "working_bam" = .ok wb) :
    ∃ sm2 instr, mark_dup_step tc (.d m) = .ok (sm2, instr) ∧
      sm2.sub "working_bam" = .ok (.s (nm.fmt ++ ".dedup.sorted.bam")) ∧
      sm2.sub "dedup_bam" = .ok (.s (nm.fmt ++ ".dedup.sorted.bam")) ∧
      ∀ k, k ≠ "working_bam" → k ≠ "dedup_bam" →
        sm2.sub k = (PyVal.d m).sub k := by
  refine ⟨_, _, mark_dup_step_spec tc m nm gd mem pd pbin wb
            h1 h2 h3 h4 h5 h6 h7, ?_, ?_, ?_⟩
  · exact sub_set_eq _ _ _
  · rw [sub_set_ne _ _ _ _ (by decide)]
    exact sub_set_eq _ _ _
  · intro k hk1 hk2
    rw [sub_set_ne _ _ _ _ hk1, sub_set_ne _ _ _ _ hk2]

/-- Witness for C9 at a concrete sample record and tool configuration. -/
theorem C9_witness :
    ∃ sm2 instr,
      mark_dup_step cfgTool
        (.d [("name", .s "S1"), ("working_bam", .s "S1.raw.bam")]) =
        .ok (sm2, instr) ∧
      sm2.sub "working_bam" =
        .ok (.s ((PyVal.s "S1").fmt ++ ".dedup.sorted.bam")) ∧
      sm2.sub "dedup_bam" =
        .ok (.s ((PyVal.s "S1").fmt ++ ".dedup.sorted.bam")) ∧
      ∀ k, k ≠ "working_bam" → k ≠ "dedup_bam" →
        sm2.sub k =
          (PyVal.d [("name", .s "S1"),
                    ("working_bam", .s "S1.raw.bam")]).sub k :=
  C9_sample_mutation cfgTool
    [("name", .s "S1"), ("working_bam", .s "S1.raw.bam")]
    (.s "S1") (.d [("max_mem", .i 8)]) (.i 8)
    (.d [("bin", .s "picard.jar")]) (.s "picard.jar") (.s "S1.raw.bam")
    rfl rfl rfl rfl rfl rfl rfl

/-- C10: realign_indels touches the {sample}.realigned.sorted.bam file
it returns before running its command; the command's -o argument is the
caller-supplied targets path; and (whenever the caller-supplied paths
and configuration values differ from it) the returned output BAM name
appears nowhere in the argument vector. -/
theorem C10_realign_indels_shape (cpu : Nat) (config gd mem r i1 i2 : PyVal)
    (sample input_bam targets : String)
    (h1 : config.sub "gatk" = .ok gd)
    (h2 : gd.sub "max_mem" = .ok mem)
    (h3 : config.sub "reference" = .ok r)
    (h4 : config.sub "indel1" = .ok i1)
    (h5 : config.sub "indel2" = .ok i2)
    (hib : input_bam ≠ realigned_output sample)
    (htg : targets ≠ realigned_output sample)
    (hg : gd.fmt ≠ realigned_output sample)
    (hr : r.fmt ≠ realigned_output sample)
    (hi1 : i1.fmt ≠ realigned_output sample)
    (hi2 : i2.fmt ≠ realigned_output sample)
    (hcpu : toString cpu ≠ realigned_output sample) :
    ∃ L, realign_indels_command cpu config sample input_bam targets =
        .ok L ∧
      realign_indels cpu config sample input_bam targets =
        (.ok (realigned_output sample),
         [Effect.log "GATK IndelRealigner Command: " L,
          Effect.touch (realigned_output sample),
          Effect.run (String.intercalate " " L)
            (sample ++ ".realignindels.log")]) ∧
      L.get? 10 = some "-o" ∧ L.get? 11 = some targets ∧
      realigned_output sample ∉ L := by
  have hc := realign_indels_command_spec cpu config gd mem r i1 i2 sample
    input_bam targets h1 h2 h3 h4 h5
  refine ⟨_, hc,
          realign_indels_spec cpu config sample input_bam targets _ hc,
          rfl, rfl, ?_⟩
  have hlast : (realigned_output sample).data.getLast? =
      some (Char.ofNat 109) :=
    append_last sample ".realigned.sorted.bam" _ (by decide)
  intro hmem
  simp only [List.mem_cons, List.not_mem_nil, or_false] at hmem
  rcases hmem with h|h|h|h|h|h|h|h|h|h|h|h|h|h|h|h|h|h
  · exact absurd (h ▸ hlast) (by decide)
  · have hx := h ▸ hlast
    rw [append_last ("-Xmx" ++ mem.fmt) "g" (Char.ofNat 103)
          (by decide)] at hx
    exact absurd hx (by decide)
  · exact absurd (h ▸ hlast) (by decide)
  · exact hg h.symm
  · exact absurd (h ▸ hlast) (by decide)
  · exact absurd (h ▸ hlast) (by decide)
  · exact absurd (h ▸ hlast) (by decide)
  · exact hr h.symm
  · exact absurd (h ▸ hlast) (by decide)
  · exact hib h.symm
  · exact absurd (h ▸ hlast) (by decide)
  · exact htg h.symm
  · exact absurd (h ▸ hlast) (by decide)
  · exact hi1 h.symm
  · exact absurd (h ▸ hlast) (by decide)
  · exact hi2 h.symm
  · exact absurd (h ▸ hlast) (by decide)
  · exact hcpu h.symm

/-- Witness for C10 at a concrete configuration. -/
theorem C10_witness :
    ∃ L, realign_indels_command 4 cfgMain "S1" "in.bam" "S1.tgt" = .ok L ∧
      realign_indels 4 cfgMain "S1" "in.bam" "S1.tgt" =
        (.ok (realigned_output "S1"),
         [Effect.log "GATK IndelRealigner Command: " L,
          Effect.touch (realigned_output "S1"),
          Effect.run (String.intercalate " " L)
            ("S1" ++ ".realignindels.log")]) ∧
      L.get? 10 = some "-o" ∧ L.get? 11 = some "S1.tgt" ∧
      realigned_output "S1" ∉ L :=
  C10_realign_indels_shape 4 cfgMain
    (.d [("bin", .s "gatk.jar"), ("max_mem", .i 8)]) (.i 8) (.s "ref.fa")
    (.s "indel1.vcf") (.s "indel2.vcf") "S1" "in.bam" "S1.tgt"
    rfl rfl rfl rfl rfl (by decide) (by decide) (by decide) (by decide)
    (by decide) (by decide) (by decide)
